import Mathlib

/-
Verification of the FootIQ metric normalization and derived-statistics engine
(python_agent/stats_config.py, data_tools.py, quant_tools.py).

Shallow embedding conventions:
* Python/JSON dynamic values are modelled by the inductive type `J`.
  Python dicts are association lists with unique keys; `dict.get(k)`
  returns `J.null` both when the key is absent and when it maps to null,
  exactly as Python's `.get` conflates the two.  Python booleans are
  numbers (ints) in Python and are modelled as `J.num 0 / J.num 1`.
* Python floats are modelled as exact rationals (ℚ); rounding of IEEE
  arithmetic is out of scope, the claims under study are about control
  flow and algebraic structure, not float precision.
* Operations that can raise a runtime TypeError/AttributeError on some
  inputs are embedded in `Except Unit`; `.error ()` marks "the Python
  code raises here".  Operations that are total in Python (every
  dynamic access is guarded by an isinstance check or try/except) are
  plain functions.
* Warning dicts `{code, message, details}` are modelled by their `code`
  and machine-readable `details`; the human-facing `message` string is
  presentation-only (no claim mentions it) and is omitted.  Error
  message strings are kept except that Python's quoting of the metric
  key inside the message is elided.
-/

namespace FootIQ

/-- Dynamic (JSON-like) values as handled by the Python code. -/
inductive J where
  | null : J
  | num : ℚ → J
  | str : String → J
  | arr : List J → J
  | obj : List (String × J) → J

/-- Python `v is None`. -/
def J.isNull : J → Bool
  | .null => true
  | _ => false

/-- Python truthiness: None, 0, "", [], {} are falsy. -/
def J.truthy : J → Bool
  | .null => false
  | .num q => q ≠ 0
  | .str s => s ≠ ""
  | .arr l => !l.isEmpty
  | .obj l => !l.isEmpty

/-- First binding of a key in a dict (Python dicts have unique keys). -/
def lookupKey (d : List (String × J)) (k : String) : Option J :=
  (d.find? (fun p => p.1 = k)).map (fun p => p.2)

/-- Python `d.get(k)`: the value if the key is present, else None. -/
def pyGet (d : List (String × J)) (k : String) : J :=
  (lookupKey d k).getD .null

/-- Python `d.get(k, dflt)`. -/
def pyGetD (d : List (String × J)) (k : String) (dflt : J) : J :=
  (lookupKey d k).getD dflt

/-- Python `v == n` for an int `n`: true only for equal numbers
(Python compares int and float by value; no other type equals an int). -/
def jeqInt (v : J) (n : ℤ) : Bool :=
  match v with
  | .num q => q = (n : ℚ)
  | _ => false

/-- Python `a or b`: `a` if truthy else `b`. -/
def jor (a b : J) : J :=
  if a.truthy then a else b

/-- Python `a == b` restricted to the scalar cases the code compares
(competitor ids). Containers are compared structurally, which agrees
with Python whenever the compared values are scalars, the only case
arising in the source. -/
def jeqScalar : J → J → Bool
  | .null, .null => true
  | .num a, .num b => a = b
  | .str a, .str b => a = b
  | _, _ => false

/-- Rendering used where the source interpolates a value into an
f-string (opponent / score text). Presentation-only: no claim depends
on the rendered text. -/
def jfmt : J → String
  | .null => "None"
  | .num q => toString q
  | .str s => s
  | .arr _ => "<list>"
  | .obj _ => "<dict>"

/-- Python str.strip(): drop leading and trailing whitespace. -/
def pyStrip (cs : List Char) : List Char :=
  ((cs.dropWhile Char.isWhitespace).reverse.dropWhile Char.isWhitespace).reverse

/-- Split a character list at every separator matching `p`. -/
def splitOnPred (p : Char → Bool) : List Char → List (List Char)
  | [] => [[]]
  | c :: cs =>
    match splitOnPred p cs with
    | h :: t => if p c then [] :: h :: t else (c :: h) :: t
    | [] => [[c]]

/-- Value of one decimal digit character. -/
def digitToNat (c : Char) : ℕ :=
  if c = '0' then 0 else if c = '1' then 1 else if c = '2' then 2
  else if c = '3' then 3 else if c = '4' then 4 else if c = '5' then 5
  else if c = '6' then 6 else if c = '7' then 7 else if c = '8' then 8
  else if c = '9' then 9 else 0

/-- Numeric value of a nonempty all-digit character list. -/
def digitsVal : List Char → Option ℕ
  | [] => none
  | cs =>
    if cs.all Char.isDigit then
      some (cs.foldl (fun a c => a * 10 + digitToNat c) 0)
    else none

/-- Strip one optional leading sign; true means negative. -/
def signSplit : List Char → Bool × List Char
  | '+' :: rest => (false, rest)
  | '-' :: rest => (true, rest)
  | cs => (false, cs)

/-- Python `int(s)` on a stripped string: an optional sign followed by
digits (underscore digit grouping is not modelled; the strings the
claims exercise contain none). Also parses the exponent part of a
float literal, which has the same grammar. -/
def pyInt (cs : List Char) : Option ℤ :=
  match signSplit cs with
  | (neg, rest) => (digitsVal rest).map (fun n => if neg then -(n : ℤ) else (n : ℤ))

/-- Unsigned float mantissa: `digits [. digits]`, `. digits` or `digits .`. -/
def pyMantissaCore (cs : List Char) : Option ℚ :=
  match splitOnPred (fun c => c = '.') cs with
  | [ip] => (digitsVal ip).map (fun n => (n : ℚ))
  | [ip, fp] =>
    if ip.isEmpty && fp.isEmpty then none
    else if (ip.isEmpty || (digitsVal ip).isSome)
         && (fp.isEmpty || (digitsVal fp).isSome) then
      some (((digitsVal ip).getD 0 : ℚ)
        + ((digitsVal fp).getD 0 : ℚ) / (10 : ℚ) ^ fp.length)
    else none
  | _ => none

/-- Signed float mantissa. -/
def pyMantissa (cs : List Char) : Option ℚ :=
  match signSplit cs with
  | (neg, rest) => (pyMantissaCore rest).map (fun q => if neg then -q else q)

/-- Python `float(s)` on a stripped string: mantissa with optional
exponent, case-insensitive `e`.  `inf`/`nan` literals are not modelled:
the call site only invokes `float` on strings containing a dot, which
excludes them. -/
def pyFloat (cs : List Char) : Option ℚ :=
  match splitOnPred (fun c => c = 'e' || c = 'E') cs with
  | [m] => pyMantissa m
  | [m, ex] =>
    match pyMantissa m, pyInt ex with
    | some q, some e => some (q * (10 : ℚ) ^ e)
    | _, _ => none
  | _ => none

/-- data_tools._coerce_numeric: native numbers pass through; strings are
stripped, then parsed as float when they contain a dot and as int
otherwise; parse failure and empty strings yield None; any other value
is returned unchanged. -/
def coerce_numeric (value : J) : J :=
  match value with
  | .num q => .num q
  | .str s =>
    let stripped := pyStrip s.toList
    if stripped.isEmpty then .null
    else if stripped.any (fun c => c = '.') then
      match pyFloat stripped with
      | some q => .num q
      | none => .null
    else
      match pyInt stripped with
      | some n => .num (n : ℚ)
      | none => .null
  | v => v

/-! ### Metric registry (stats_config.py) -/

inductive Availability where
  | L1 : Availability
  | L2 : Availability
deriving DecidableEq

inductive MissingSemantic where
  | true_zero : MissingSemantic
  | missing : MissingSemantic
deriving DecidableEq

inductive Per90Rule where
  | per90_by_minutes : Per90Rule
  | weightedRatio : Per90Rule
  | na : Per90Rule
deriving DecidableEq

structure MetricDef where
  api_type_id : Option ℤ
  key : String
  display_name : String
  data_type : String
  unit : String
  availability : Option Availability
  missing_semantic : MissingSemantic
  per90_rule : Per90Rule
  numerator_key : Option String := none
  denominator_key : Option String := none
  is_derived : Bool := false
  required_inputs : List String := []
deriving DecidableEq

def RATING : MetricDef :=
  { api_type_id := some 10, key := "rating", display_name := "Match Rating",
    data_type := "float", unit := "0-10 scale", availability := some .L1,
    missing_semantic := .missing, per90_rule := .na }

def GOALS : MetricDef :=
  { api_type_id := some 21, key := "goals", display_name := "Goals",
    data_type := "int", unit := "count", availability := some .L1,
    missing_semantic := .true_zero, per90_rule := .per90_by_minutes }

def ASSISTS : MetricDef :=
  { api_type_id := some 22, key := "assists", display_name := "Assists",
    data_type := "int", unit := "count", availability := some .L1,
    missing_semantic := .true_zero, per90_rule := .per90_by_minutes }

def MINUTES_PLAYED : MetricDef :=
  { api_type_id := some 11, key := "minutes_played", display_name := "Minutes Played",
    data_type := "int", unit := "minutes", availability := some .L1,
    missing_semantic := .true_zero, per90_rule := .na }

def YELLOW_CARDS : MetricDef :=
  { api_type_id := some 14, key := "yellow_cards", display_name := "Yellow Cards",
    data_type := "int", unit := "count", availability := some .L1,
    missing_semantic := .true_zero, per90_rule := .per90_by_minutes }

def RED_CARDS : MetricDef :=
  { api_type_id := some 15, key := "red_cards", display_name := "Red Cards",
    data_type := "int", unit := "count", availability := some .L1,
    missing_semantic := .true_zero, per90_rule := .per90_by_minutes }

def EXPECTED_GOALS : MetricDef :=
  { api_type_id := some 42, key := "expected_goals", display_name := "Expected Goals (xG)",
    data_type := "float", unit := "xG", availability := some .L2,
    missing_semantic := .missing, per90_rule := .per90_by_minutes }

def SHOTS_TOTAL : MetricDef :=
  { api_type_id := some 56, key := "shots_total", display_name := "Total Shots",
    data_type := "int", unit := "count", availability := some .L2,
    missing_semantic := .missing, per90_rule := .per90_by_minutes }

def SHOTS_ON_TARGET : MetricDef :=
  { api_type_id := some 57, key := "shots_on_target", display_name := "Shots on Target",
    data_type := "int", unit := "count", availability := some .L2,
    missing_semantic := .missing, per90_rule := .per90_by_minutes }

def TOUCHES_IN_BOX : MetricDef :=
  { api_type_id := some 55, key := "touches_in_box", display_name := "Touches in Penalty Box",
    data_type := "int", unit := "count", availability := some .L2,
    missing_semantic := .missing, per90_rule := .per90_by_minutes }

def KEY_PASSES : MetricDef :=
  { api_type_id := some 45, key := "key_passes", display_name := "Key Passes",
    data_type := "int", unit := "count", availability := some .L2,
    missing_semantic := .missing, per90_rule := .per90_by_minutes }

def TACKLES_WON : MetricDef :=
  { api_type_id := some 78, key := "tackles_won", display_name := "Tackles Won",
    data_type := "int", unit := "count", availability := some .L2,
    missing_semantic := .missing, per90_rule := .per90_by_minutes }

def SHOT_ACCURACY : MetricDef :=
  { api_type_id := none, key := "shot_accuracy", display_name := "Shot Accuracy",
    data_type := "percentage", unit := "%", availability := none,
    missing_semantic := .missing, per90_rule := .weightedRatio,
    numerator_key := some "shots_on_target", denominator_key := some "shots_total",
    is_derived := true, required_inputs := ["shots_on_target", "shots_total"] }

def GOAL_INVOLVEMENT : MetricDef :=
  { api_type_id := none, key := "goal_involvement", display_name := "Goal Involvement",
    data_type := "int", unit := "count", availability := none,
    missing_semantic := .true_zero, per90_rule := .per90_by_minutes,
    is_derived := true, required_inputs := ["goals", "assists"] }

def XG_OVERPERFORMANCE : MetricDef :=
  { api_type_id := none, key := "xg_overperformance", display_name := "xG Overperformance",
    data_type := "float", unit := "goals - xG", availability := none,
    missing_semantic := .missing, per90_rule := .na,
    is_derived := true, required_inputs := ["goals", "expected_goals"] }

def MINUTES_PER_GOAL : MetricDef :=
  { api_type_id := none, key := "minutes_per_goal", display_name := "Minutes per Goal",
    data_type := "float", unit := "minutes", availability := none,
    missing_semantic := .missing, per90_rule := .na,
    is_derived := true, required_inputs := ["minutes_played", "goals"] }

def ALL_RAW_METRICS : List MetricDef :=
  [RATING, GOALS, ASSISTS, MINUTES_PLAYED, YELLOW_CARDS, RED_CARDS,
   EXPECTED_GOALS, SHOTS_TOTAL, SHOTS_ON_TARGET, TOUCHES_IN_BOX, KEY_PASSES, TACKLES_WON]

def ALL_DERIVED_METRICS : List MetricDef :=
  [SHOT_ACCURACY, GOAL_INVOLVEMENT, XG_OVERPERFORMANCE, MINUTES_PER_GOAL]

/-- KEY_TO_METRIC lookup. Keys in the registry are unique, so
first-match association-list lookup coincides with the Python dict. -/
def keyToMetric (k : String) : Option MetricDef :=
  (ALL_RAW_METRICS ++ ALL_DERIVED_METRICS).find? (fun m => m.key = k)

def L1_METRICS : List MetricDef :=
  ALL_RAW_METRICS.filter (fun m => m.availability = some .L1)

def PER90_MIN_MINUTES : ℚ := 90

/-- data_tools.LIVE_TYPE_ID_FALLBACKS, as `dict.get(key, ())`. -/
def LIVE_TYPE_ID_FALLBACKS (key : String) : List ℤ :=
  if key = "rating" then [0]
  else if key = "minutes_played" then [229]
  else if key = "goals" then [225]
  else if key = "assists" then [226, 1]
  else []

/-! ### Metric extraction (stats_config.extract_metric_value) -/

/-- The branch taken by every extractor when the found value is null:
TrueZero yields 0, Missing yields None. -/
def nullPolicy (m : MetricDef) : J :=
  if m.missing_semantic = .true_zero then .num 0 else .null

/-- stats_config.extract_metric_value: scan the statistics array for the
first entry whose "type" equals the metric's api_type_id; a non-null
value is returned as-is, a null value and a missing entry fall back to
the missing-data policy; derived metrics (null api_type_id) are never
extracted. Each statistics entry is a `{"type": .., "value": ..}` dict. -/
def extract_scan (m : MetricDef) (tid : ℤ) : List (List (String × J)) → J
  | [] => nullPolicy m
  | stat :: rest =>
    if jeqInt (pyGet stat "type") tid then
      let value := pyGet stat "value"
      if value.isNull then nullPolicy m else value
    else extract_scan m tid rest

def extract_metric_value (statistics : List (List (String × J))) (m : MetricDef) : J :=
  match m.api_type_id with
  | none => .null
  | some tid => extract_scan m tid statistics

/-! ### data_tools extraction with fallback identifiers -/

/-- data_tools._find_stat_value: first dict entry in the statistics
list whose "type" equals `type_id`; non-dict entries are skipped;
returns (found, coerced value). -/
def _find_stat_value (statistics : List J) (type_id : ℤ) : Bool × J :=
  match statistics with
  | [] => (false, .null)
  | stat :: rest =>
    match stat with
    | .obj d =>
      if jeqInt (pyGet d "type") type_id then
        (true, coerce_numeric (pyGet d "value"))
      else _find_stat_value rest type_id
    | _ => _find_stat_value rest type_id

/-- The candidate identifier loop of
data_tools._extract_metric_value_with_fallback. -/
def fallback_scan (statistics : List J) (m : MetricDef) : List ℤ → J
  | [] => nullPolicy m
  | tid :: rest =>
    match _find_stat_value statistics tid with
    | (false, _) => fallback_scan statistics m rest
    | (true, value) => if value.isNull then nullPolicy m else value

/-- data_tools._extract_metric_value_with_fallback: try the canonical
type id then each live fallback id in order; the first id present in
the list decides (its null goes through the missing policy); if no
candidate is present, the missing policy applies. -/
def _extract_metric_value_with_fallback (statistics : List J) (m : MetricDef) : J :=
  match m.api_type_id with
  | none => .null
  | some tid => fallback_scan statistics m (tid :: LIVE_TYPE_ID_FALLBACKS m.key)

/-! ### Normalizer (data_tools._normalize_games / _normalize_lineup) -/

/-- Warning dicts, modelled by code and machine-readable details
(the human message string is presentation-only). -/
structure Warning where
  code : String
  details : List (String × J)

/-- data_tools._extract_stats_list: the statistics array under
"statistics" or "athleteStats", flat or wrapped under "lineup";
the first non-empty list wins; anything else yields []. -/
def _extract_stats_list (record : J) : List J :=
  match record with
  | .obj d =>
    match pyGet d "statistics" with
    | .arr l =>
      if !l.isEmpty then l else statsFallback d
    | _ => statsFallback d
  | _ => []
where
  statsFallback (d : List (String × J)) : List J :=
    match pyGet d "athleteStats" with
    | .arr l => if !l.isEmpty then l else statsWrapped d
    | _ => statsWrapped d
  statsWrapped (d : List (String × J)) : List J :=
    match pyGetD d "lineup" (.obj []) with
    | .obj w =>
      match pyGet w "statistics" with
      | .arr l =>
        if !l.isEmpty then l
        else match pyGet w "athleteStats" with
          | .arr l2 => if !l2.isEmpty then l2 else []
          | _ => []
      | _ =>
        match pyGet w "athleteStats" with
        | .arr l2 => if !l2.isEmpty then l2 else []
        | _ => []
    | _ => []

/-- data_tools._extract_game_id. -/
def _extract_game_id (game : J) : J :=
  match game with
  | .obj d =>
    if !(pyGet d "game_id").isNull then pyGet d "game_id"
    else
      match pyGetD d "game" (.obj []) with
      | .obj g => pyGet g "id"
      | _ => pyGet d "id"
  | _ => .null

/-- data_tools._extract_game_date. -/
def _extract_game_date (game : J) : J :=
  match game with
  | .obj d =>
    if (pyGet d "date").truthy then pyGet d "date"
    else
      match pyGetD d "game" (.obj []) with
      | .obj g => pyGet g "startTime"
      | _ => pyGet d "startTime"
  | _ => .null

/-- Python `(v or {}).get(..)` receiver: a falsy value becomes the empty
dict, a truthy dict is itself, and a truthy non-dict raises
AttributeError at the `.get` call. -/
def orDict (v : J) : Except Unit (List (String × J)) :=
  if v.truthy then
    match v with
    | .obj d => .ok d
    | _ => .error ()
  else .ok []

/-- data_tools._extract_game_score. -/
def _extract_game_score (game : J) : Except Unit J :=
  match game with
  | .obj d =>
    if (pyGet d "score").truthy then .ok (pyGet d "score")
    else
      match pyGetD d "game" (.obj []) with
      | .obj g => do
        let hc ← orDict (pyGet g "homeCompetitor")
        let ac ← orDict (pyGet g "awayCompetitor")
        let home := pyGet hc "score"
        let away := pyGet ac "score"
        if !home.isNull && !away.isNull then
          .ok (.str (jfmt home ++ "-" ++ jfmt away))
        else
          match pyGet g "scores" with
          | .arr l =>
            if l.length ≥ 2 then
              .ok (.str (jfmt (l.getD 0 .null) ++ "-" ++ jfmt (l.getD 1 .null)))
            else .ok .null
          | _ => .ok .null
      | _ => .ok .null
  | _ => .ok .null

/-- Final fallback of _derive_opponent: "home vs away" when both sides
are known, otherwise the first truthy of home, away, "Unknown". -/
def opponentTail (home away : J) : Except Unit J :=
  if home.truthy && away.truthy then
    .ok (.str (jfmt home ++ " vs " ++ jfmt away))
  else .ok (jor home (jor away (.str "Unknown")))

/-- One side of _derive_opponent's competitor-name fallback:
`if not current and isinstance(game_obj, dict):
   current = (game_obj.get(field) or {}).get("name", "")`. -/
def opponentSide (gameObj : J) (field : String) (current : J) : Except Unit J :=
  match gameObj with
  | .obj g =>
    if !current.truthy then do
      let c ← orDict (pyGet g field)
      pure (pyGetD c "name" (.str ""))
    else pure current
  | _ => pure current

/-- The relatedCompetitor branch of _derive_opponent: when a related
competitor id is present, the opponent is the other side. -/
def opponentRelated (gameObj related home away : J) : Except Unit J :=
  match gameObj with
  | .obj g =>
    if !related.isNull then do
      let hc ← orDict (pyGet g "homeCompetitor")
      let ac ← orDict (pyGet g "awayCompetitor")
      if jeqScalar (pyGet hc "id") related then
        .ok (jor (pyGet ac "name") (jor away (.str "Unknown")))
      else if jeqScalar (pyGet ac "id") related then
        .ok (jor (pyGet hc "name") (jor home (.str "Unknown")))
      else opponentTail home away
    else opponentTail home away
  | _ => opponentTail home away

/-- data_tools._derive_opponent. -/
def _derive_opponent (game : J) : Except Unit J :=
  let gameObj : J :=
    match game with
    | .obj d => pyGetD d "game" game
    | _ => .obj []
  let home0 : J := match game with | .obj d => pyGetD d "home_team" (.str "") | _ => .str ""
  let away0 : J := match game with | .obj d => pyGetD d "away_team" (.str "") | _ => .str ""
  do
  let home ← opponentSide gameObj "homeCompetitor" home0
  let away ← opponentSide gameObj "awayCompetitor" away0
  let related : J := match game with | .obj d => pyGet d "relatedCompetitor" | _ => .null
  opponentRelated gameObj related home away

/-- All type ids known to any raw metric: canonical ids plus live
fallback ids (Python builds a set; only membership matters). -/
def knownIds : List ℤ :=
  ALL_RAW_METRICS.foldl
    (fun acc m =>
      acc ++ (match m.api_type_id with | some t => [t] | none => [])
          ++ LIVE_TYPE_ID_FALLBACKS m.key) []

/-- Python `type_id in known_ids` for a set of ints: floats equal to a
member are members; non-numbers never are. -/
def isKnownId (t : J) : Bool :=
  match t with
  | .num q => knownIds.any (fun z => q = (z : ℚ))
  | _ => false

/-- The unknown-type-id detection loop shared by both normalizers:
dict entries whose non-null "type" matches no known id, in list order. -/
def unknownIdsOf (stats : List J) : List J :=
  stats.filterMap (fun stat =>
    match stat with
    | .obj d =>
      let t := pyGet d "type"
      if t.isNull then none
      else if isKnownId t then none
      else some t
    | _ => none)

structure NormGame where
  game_id : J
  date : J
  opponent : J
  score : J
  metrics : List (String × J)
  unknown_type_ids : List J

structure NormGames where
  games : List NormGame
  normalization_warnings : List Warning

/-- One iteration of the _normalize_games loop: the canonical record
for one raw game entry plus its NORMALIZATION_GAP warnings (one
aggregate warning listing all unknown ids, when any). -/
def normGameRecord (game : J) : Except Unit (NormGame × List Warning) := do
  let stats := _extract_stats_list game
  let metrics := L1_METRICS.map
    (fun md => (md.key, _extract_metric_value_with_fallback stats md))
  let unknown := unknownIdsOf stats
  let gid := _extract_game_id game
  let ws : List Warning :=
    if unknown.isEmpty then []
    else [⟨"NORMALIZATION_GAP",
           [("game_id", gid), ("unknown_type_ids", .arr unknown)]⟩]
  let opp ← _derive_opponent game
  let sc ← _extract_game_score game
  pure (⟨gid, _extract_game_date game, opp, sc, metrics, unknown⟩, ws)

/-- Python `for x in v`: lists yield elements, strings characters,
dicts their keys; other values raise TypeError. -/
def pyIterate (v : J) : Except Unit (List J) :=
  match v with
  | .arr l => .ok l
  | .str s => .ok (s.toList.map (fun c => .str (String.mk [c])))
  | .obj d => .ok (d.map (fun p => J.str p.1))
  | _ => .error ()

/-- data_tools._normalize_games: iterate `raw.get("games", [])`,
normalizing each entry with L1 metrics and collecting gap warnings. -/
def _normalize_games (raw : J) : Except Unit NormGames :=
  match raw with
  | .obj d => do
    let gs ← pyIterate (pyGetD d "games" (.arr []))
    let recs ← gs.mapM normGameRecord
    pure ⟨recs.map (fun r => r.1), (recs.map (fun r => r.2)).flatten⟩
  | _ => .error ()

/-- data_tools._extract_position: `lineup.get("position")`, unwrapping
a dict-valued position to its "name"; raises on a non-dict lineup. -/
def _extract_position (lineup : J) : Except Unit J :=
  match lineup with
  | .obj d =>
    match pyGet d "position" with
    | .obj p => .ok (pyGet p "name")
    | v => .ok v
  | _ => .error ()

structure NormLineup where
  game_id : J
  athlete_id : J
  position : J
  metrics : List (String × J)
  unknown_type_ids : List J
  normalization_warnings : List Warning

/-- data_tools._normalize_lineup: L1+L2 metrics from the (possibly
"lineup"-wrapped) record; one NORMALIZATION_GAP warning per unknown id. -/
def _normalize_lineup (raw : J) : Except Unit NormLineup :=
  match raw with
  | .obj d =>
    let lineup := pyGetD d "lineup" raw
    let stats := _extract_stats_list lineup
    let metrics := ALL_RAW_METRICS.map
      (fun md => (md.key, _extract_metric_value_with_fallback stats md))
    let unknown := unknownIdsOf stats
    let ws : List Warning :=
      unknown.map (fun t => ⟨"NORMALIZATION_GAP", [("unknown_type_id", t)]⟩)
    do
    let aid ←
      match lineup with
      | .obj ld => Except.ok (jor (pyGet ld "athlete_id") (pyGet ld "athleteId"))
      | _ => Except.error ()
    let pos ← _extract_position lineup
    pure ⟨_extract_game_id lineup, aid, pos, metrics, unknown, ws⟩
  | _ => .error ()

/-! ### Quant layer (quant_tools.py)

The quant functions consume canonical game records: per the data model,
a record's metrics map each metric key to a numeric value or to null
(absent). `Game` embeds exactly that record shape; metric lookups use
the same Python `dict.get` semantics as above. -/

structure QuantResult where
  value : Option ℚ := none
  raw_values : List (Option ℚ) := []
  warnings : List Warning := []
  error : Option String := none

/-- One canonical game record as consumed by quant_tools:
its game_id and its metrics dict (value or null per key). -/
structure Game where
  gameId : J := .null
  metrics : List (String × Option ℚ) := []

/-- Python `game["metrics"].get(key)`: None when the key is absent or
maps to null. -/
def Game.val (g : Game) (k : String) : Option ℚ :=
  ((g.metrics.find? (fun p => p.1 = k)).map (fun p => p.2)).join

/-- Python `game["metrics"].get(key, 0)`: 0 when the key is absent,
the stored value otherwise (None when the key maps to null — the
callers then raise TypeError on arithmetic, modelled as `none`). -/
def Game.valD0 (g : Game) (k : String) : Option ℚ :=
  match (g.metrics.find? (fun p => p.1 = k)).map (fun p => p.2) with
  | none => some 0
  | some v => v

/-- METRIC_UNAVAILABLE warning for one skipped game (per-90 / xG). -/
def gameMetricWarn (mk : String) (g : Game) : Warning :=
  ⟨"METRIC_UNAVAILABLE", [("game_id", g.gameId), ("metric", .str mk)]⟩

/-- METRIC_UNAVAILABLE warning for a game lacking shot data. -/
def shotDataWarn (g : Game) : Warning :=
  ⟨"METRIC_UNAVAILABLE", [("game_id", g.gameId)]⟩

/-- Accumulation loop of _compute_shot_accuracy: games missing either
input are skipped with a warning. -/
def shot_accuracy_fold : List Game → ℚ → ℚ → List Warning → ℚ × ℚ × List Warning
  | [], tOn, tSh, ws => (tOn, tSh, ws)
  | g :: rest, tOn, tSh, ws =>
    match g.val "shots_on_target", g.val "shots_total" with
    | some onT, some tot => shot_accuracy_fold rest (tOn + onT) (tSh + tot) ws
    | _, _ => shot_accuracy_fold rest tOn tSh (ws ++ [shotDataWarn g])

/-- quant_tools._compute_shot_accuracy:
sum(shots_on_target) / sum(shots_total); zero denominator → absent. -/
def _compute_shot_accuracy (games : List Game) : QuantResult :=
  match shot_accuracy_fold games 0 0 [] with
  | (tOn, tSh, ws) =>
    if tSh = 0 then { value := none, warnings := ws }
    else { value := some (tOn / tSh), warnings := ws }

/-- Accumulation loop of _compute_goal_involvement (absent → skip that
addend, i.e. treated as 0). -/
def goal_involvement_fold : List Game → ℚ → ℚ → ℚ × ℚ
  | [], tg, ta => (tg, ta)
  | g :: rest, tg, ta =>
    let tg2 := match g.val "goals" with | some v => tg + v | none => tg
    let ta2 := match g.val "assists" with | some v => ta + v | none => ta
    goal_involvement_fold rest tg2 ta2

/-- quant_tools._compute_goal_involvement: sum(goals) + sum(assists). -/
def _compute_goal_involvement (games : List Game) : QuantResult :=
  match goal_involvement_fold games 0 0 with
  | (tg, ta) => { value := some (tg + ta) }

/-- Accumulation loop of _compute_xg_overperformance: the first game
with absent xG aborts the whole computation. -/
def xg_fold (ws : List Warning) : List Game → ℚ → ℚ → QuantResult
  | [], tg, tx => { value := some (tg - tx), warnings := ws }
  | g :: rest, tg, tx =>
    match g.val "expected_goals" with
    | none =>
      { value := none, warnings := ws ++ [gameMetricWarn "expected_goals" g] }
    | some xg => xg_fold ws rest (tg + ((g.val "goals").getD 0)) (tx + xg)

/-- quant_tools._compute_xg_overperformance: sum(goals, true-zero) −
sum(expected_goals), aborted by any absent xG. -/
def _compute_xg_overperformance (games : List Game) : QuantResult :=
  xg_fold [] games 0 0

/-- Accumulation loop of _compute_minutes_per_goal; a key stored as
null makes Python's `+=` raise TypeError. -/
def mpg_fold : List Game → ℚ → ℚ → Except Unit (ℚ × ℚ)
  | [], tm, tg => .ok (tm, tg)
  | g :: rest, tm, tg =>
    match g.valD0 "minutes_played", g.valD0 "goals" with
    | some m, some gl => mpg_fold rest (tm + m) (tg + gl)
    | _, _ => .error ()

/-- quant_tools._compute_minutes_per_goal: sum(minutes) / sum(goals),
absent inputs defaulted to 0; zero total goals → absent with warning. -/
def _compute_minutes_per_goal (games : List Game) : Except Unit QuantResult := do
  let (tm, tg) ← mpg_fold games 0 0
  if tg = 0 then
    pure { value := none,
           warnings := [⟨"METRIC_UNAVAILABLE", [("total_goals", .num 0)]⟩] }
  else pure { value := some (tm / tg) }

/-- quant_tools.compute_derived: dispatch by metric key; unknown keys
and non-derived keys are explicit errors. -/
def compute_derived (games : List Game) (metric_key : String) : Except Unit QuantResult :=
  match keyToMetric metric_key with
  | none => .ok { error := some ("Unknown metric: " ++ metric_key) }
  | some md =>
    if !md.is_derived then
      .ok { error := some ("Metric " ++ metric_key ++ " is not a derived metric.") }
    else if metric_key = "shot_accuracy" then .ok (_compute_shot_accuracy games)
    else if metric_key = "goal_involvement" then .ok (_compute_goal_involvement games)
    else if metric_key = "xg_overperformance" then .ok (_compute_xg_overperformance games)
    else if metric_key = "minutes_per_goal" then _compute_minutes_per_goal games
    else .ok { error := some ("No computation defined for derived metric: " ++ metric_key) }

/-- Aggregate METRIC_UNAVAILABLE warning (metric absent in all games). -/
def aggUnavailWarn (mk : String) : Warning :=
  ⟨"METRIC_UNAVAILABLE", [("metric", .str mk)]⟩

/-- INSUFFICIENT_MINUTES warning with the actual total and threshold. -/
def insuffMinutesWarn (total : ℚ) : Warning :=
  ⟨"INSUFFICIENT_MINUTES",
   [("total_minutes", .num total), ("threshold", .num PER90_MIN_MINUTES)]⟩

/-- Accumulation loop of compute_per90: games with the metric absent
are excluded from both sums, each with a warning; a null
minutes_played entry makes Python's `+=` raise TypeError. -/
def per90_fold (mk : String) :
    List Game → ℚ → ℚ → Bool → List Warning → Except Unit (ℚ × ℚ × Bool × List Warning)
  | [], tm, tmin, hav, ws => .ok (tm, tmin, hav, ws)
  | g :: rest, tm, tmin, hav, ws =>
    match g.val mk with
    | none => per90_fold mk rest tm tmin hav (ws ++ [gameMetricWarn mk g])
    | some v =>
      match g.valD0 "minutes_played" with
      | none => .error ()
      | some mins => per90_fold mk rest (tm + v) (tmin + mins) true ws

/-- quant_tools.compute_per90: (sum(metric) / sum(minutes)) * 90 with
the ≥ 90 total-minutes threshold; NA metrics are explicit errors and
weighted-ratio metrics delegate to compute_derived. -/
def compute_per90 (games : List Game) (metric_key : String) : Except Unit QuantResult :=
  match keyToMetric metric_key with
  | none => .ok { error := some ("Unknown metric: " ++ metric_key) }
  | some md =>
    if md.per90_rule = .na then
      .ok { error := some ("Metric " ++ metric_key ++ " does not support per-90 normalization.") }
    else if md.per90_rule = .weightedRatio then compute_derived games metric_key
    else do
      let (tm, tmin, hav, ws) ← per90_fold metric_key games 0 0 false []
      if !hav then pure { value := none, warnings := [aggUnavailWarn metric_key] }
      else if tmin < PER90_MIN_MINUTES then
        pure { value := none, warnings := ws ++ [insuffMinutesWarn tmin] }
      else pure { value := some (tm / tmin * 90), warnings := ws }

/-! ### Baseline comparator (quant_tools.compute_zscore) -/

/-- One baseline entry, read with `.get`: every field may be absent. -/
structure Baseline where
  mean : Option ℚ := none
  std : Option ℚ := none
  n : Option ℤ := none

/-- The loaded baselines table, abstracted as the total lookup
`baselines.get(league, {}).get(season, {}).get(position, {}).get(metric_key)`. -/
def Baselines : Type := String → String → String → String → Option Baseline

def noBaselineWarn (metric_key league season position : String) : Warning :=
  ⟨"BASELINE_MISSING",
   [("fallback", .str "raw_per90"), ("league", .str league),
    ("season", .str season), ("position", .str position),
    ("metric", .str metric_key)]⟩

def zeroVarianceWarn (metric_key : String) : Warning :=
  ⟨"BASELINE_MISSING",
   [("fallback", .str "raw_per90"), ("reason", .str "zero_variance"),
    ("metric", .str metric_key)]⟩

def lowSampleWarn (metric_key : String) (n : ℤ) : Warning :=
  ⟨"BASELINE_MISSING",
   [("fallback", .str "raw_per90"), ("reason", .str "low_sample"),
    ("n", .num (n : ℚ)), ("metric", .str metric_key)]⟩

/-- quant_tools.compute_zscore: absent input is an explicit error;
missing baseline, zero/absent std, and n<30 return the raw value with a
BASELINE_MISSING warning; otherwise z = (v − mean) / std.  A baseline
entry with a present, nonzero std but an absent mean would raise a
TypeError at the subtraction, modelled as `.error`. -/
def compute_zscore (baselines : Baselines) (per90_value : Option ℚ)
    (metric_key league season position : String) : Except Unit QuantResult :=
  match per90_value with
  | none => .ok { value := none, error := some "Cannot compute z-score: per90_value is None." }
  | some v =>
    match baselines league season position metric_key with
    | none => .ok { value := some v, warnings := [noBaselineWarn metric_key league season position] }
    | some b =>
      let n := b.n.getD 0
      if (match b.std with | none => true | some s => s = 0 : Bool) then
        .ok { value := some v, warnings := [zeroVarianceWarn metric_key] }
      else if n < 30 then
        .ok { value := some v, warnings := [lowSampleWarn metric_key n] }
      else
        match b.mean, b.std with
        | some mean, some std => .ok { value := some ((v - mean) / std) }
        | _, _ => .error ()

/-- Lookup of one machine-readable detail in a warning. -/
def Warning.detail (w : Warning) (k : String) : Option J :=
  (w.details.find? (fun p => p.1 = k)).map (fun p => p.2)

/-! ### Spec-side notions used by the theorems -/

/-- An observation dict carries the given type id. -/
def statMatches (tid : ℤ) (stat : List (String × J)) : Bool :=
  jeqInt (pyGet stat "type") tid

/-- A raw (possibly non-dict) observation carries the given type id. -/
def jStatMatches (tid : ℤ) (stat : J) : Bool :=
  match stat with
  | .obj d => jeqInt (pyGet d "type") tid
  | _ => false

/-- A baselines table with no entries at all. -/
def emptyBaselines : Baselines := fun _ _ _ _ => none

/-- A small concrete baselines table exercising every z-score branch. -/
def egBaselines : Baselines := fun _lg _se _po mk =>
  if mk = "goals" then some { mean := some 1, std := some 2, n := some 500 }
  else if mk = "assists" then some { mean := some 1, std := some 0, n := some 40 }
  else if mk = "rating" then some { mean := some 1, std := some 2, n := some 10 }
  else none

/-- The spec's per-90 worked example: goals [2,2,0,1,0] over minutes
[90,90,78,85,90]. -/
def egGames : List Game :=
  [⟨.num 1, [("goals", some 2), ("minutes_played", some 90)]⟩,
   ⟨.num 2, [("goals", some 2), ("minutes_played", some 90)]⟩,
   ⟨.num 3, [("goals", some 0), ("minutes_played", some 78)]⟩,
   ⟨.num 4, [("goals", some 1), ("minutes_played", some 85)]⟩,
   ⟨.num 5, [("goals", some 0), ("minutes_played", some 90)]⟩]

/-- Sum of the metric over the games where it is present. -/
def sumMetric (mk : String) (games : List Game) : ℚ :=
  ((games.filter (fun g => (g.val mk).isSome)).map (fun g => (g.val mk).getD 0)).sum

/-- Sum of minutes_played over the games where the metric is present. -/
def sumMinutes (mk : String) (games : List Game) : ℚ :=
  ((games.filter (fun g => (g.val mk).isSome)).map
    (fun g => (g.valD0 "minutes_played").getD 0)).sum

/-- One METRIC_UNAVAILABLE warning per game where the metric is absent,
in game order. -/
def absentWarnings (mk : String) (games : List Game) : List Warning :=
  (games.filter (fun g => (g.val mk).isNone)).map (gameMetricWarn mk)

/-- Both shot inputs present in a game. -/
def bothShotsPresent (g : Game) : Bool :=
  (g.val "shots_on_target").isSome && (g.val "shots_total").isSome

def shotOnSum (games : List Game) : ℚ :=
  ((games.filter bothShotsPresent).map (fun g => (g.val "shots_on_target").getD 0)).sum

def shotTotalSum (games : List Game) : ℚ :=
  ((games.filter bothShotsPresent).map (fun g => (g.val "shots_total").getD 0)).sum

def shotSkipWarnings (games : List Game) : List Warning :=
  (games.filter (fun g => !bothShotsPresent g)).map shotDataWarn

/-- Sum of `metrics.get(k, 0)` over all games (absent keys count 0). -/
def sumD0 (k : String) (games : List Game) : ℚ :=
  (games.map (fun g => (g.valD0 k).getD 0)).sum

/-- A value that Python can call `.get` on when truthy: a mapping, or
anything falsy (which `or {}` replaces by the empty dict). -/
def compFieldOk (v : J) : Bool :=
  !v.truthy || (match v with | .obj _ => true | _ => false)

/-- Both competitor fields of a candidate game object are safe. -/
def objCompsOk : J → Bool
  | .obj d => compFieldOk (pyGet d "homeCompetitor") && compFieldOk (pyGet d "awayCompetitor")
  | _ => true

/-- A raw game entry whose competitor fields (direct, and under the
"game" wrapper) cannot make opponent/score derivation raise. -/
def gameOk (game : J) : Bool :=
  objCompsOk game &&
    (match game with
     | .obj d => objCompsOk (pyGet d "game")
     | _ => true)

/-! ### Evaluation lemmas for the Except monad -/

theorem except_bind_ok {α β ε : Type} (a : α) (f : α → Except ε β) :
    (Except.ok a >>= f : Except ε β) = f a := rfl

theorem except_bind_error {α β ε : Type} (e : ε) (f : α → Except ε β) :
    ((Except.error e : Except ε α) >>= f) = .error e := rfl

theorem except_pure {α ε : Type} (a : α) : (pure a : Except ε α) = .ok a := rfl

/-! ### Lemmas on the extraction scans -/

theorem extract_scan_all_miss (m : MetricDef) (tid : ℤ) :
    ∀ stats : List (List (String × J)),
    (∀ s ∈ stats, statMatches tid s = false) →
    extract_scan m tid stats = nullPolicy m := by
  intro stats h
  induction stats with
  | nil => rfl
  | cons st rest ih =>
    have h1 : statMatches tid st = false := h st (by simp)
    simp only [statMatches] at h1
    simp only [extract_scan, h1, Bool.false_eq_true, if_false]
    exact ih (fun s hs => h s (by simp [hs]))

theorem extract_scan_first_found (m : MetricDef) (tid : ℤ)
    (st : List (String × J)) (hst : statMatches tid st = true) :
    ∀ (pre post : List (List (String × J))),
    (∀ s ∈ pre, statMatches tid s = false) →
    extract_scan m tid (pre ++ st :: post) =
      (if (pyGet st "value").isNull then nullPolicy m else pyGet st "value") := by
  intro pre post h
  induction pre with
  | nil =>
    simp only [statMatches] at hst
    simp [extract_scan, hst]
  | cons p rest ih =>
    have h1 : statMatches tid p = false := h p (by simp)
    simp only [statMatches] at h1
    simp only [List.cons_append, extract_scan, h1, Bool.false_eq_true, if_false]
    exact ih (fun s hs => h s (by simp [hs]))

theorem extract_scan_post_irrelevant (m : MetricDef) (tid : ℤ)
    (st : List (String × J)) (hst : statMatches tid st = true) :
    ∀ (pre post post' : List (List (String × J))),
    extract_scan m tid (pre ++ st :: post) = extract_scan m tid (pre ++ st :: post') := by
  intro pre post post'
  induction pre with
  | nil =>
    simp only [statMatches] at hst
    simp [extract_scan, hst]
  | cons p rest ih =>
    by_cases hp : jeqInt (pyGet p "type") tid = true
    · simp [extract_scan, hp]
    · simp only [List.cons_append, extract_scan,
        Bool.not_eq_true (jeqInt (pyGet p "type") tid) ▸ hp]
      simp only [eq_false_of_ne_true hp, Bool.false_eq_true, if_false]
      exact ih

theorem find_stat_all_miss (tid : ℤ) :
    ∀ stats : List J,
    (∀ s ∈ stats, jStatMatches tid s = false) →
    _find_stat_value stats tid = (false, .null) := by
  intro stats h
  induction stats with
  | nil => rfl
  | cons st rest ih =>
    have h1 : jStatMatches tid st = false := h st (by simp)
    have ih2 := ih (fun s hs => h s (by simp [hs]))
    cases st with
    | obj d =>
      simp only [jStatMatches] at h1
      simp [_find_stat_value, h1, ih2]
    | null => simpa [_find_stat_value] using ih2
    | num q => simpa [_find_stat_value] using ih2
    | str s => simpa [_find_stat_value] using ih2
    | arr l => simpa [_find_stat_value] using ih2

theorem find_stat_first_found (tid : ℤ) (d : List (String × J))
    (hd : jeqInt (pyGet d "type") tid = true) :
    ∀ (pre post : List J),
    (∀ s ∈ pre, jStatMatches tid s = false) →
    _find_stat_value (pre ++ .obj d :: post) tid =
      (true, coerce_numeric (pyGet d "value")) := by
  intro pre post h
  induction pre with
  | nil => simp [_find_stat_value, hd]
  | cons p rest ih =>
    have h1 : jStatMatches tid p = false := h p (by simp)
    have ih2 := ih (fun s hs => h s (by simp [hs]))
    cases p with
    | obj pd =>
      simp only [jStatMatches] at h1
      simpa [_find_stat_value, h1] using ih2
    | null => simpa [_find_stat_value] using ih2
    | num q => simpa [_find_stat_value] using ih2
    | str s => simpa [_find_stat_value] using ih2
    | arr l => simpa [_find_stat_value] using ih2

theorem find_stat_post_irrelevant (tid : ℤ) (st : J)
    (hst : jStatMatches tid st = true) :
    ∀ (pre post post' : List J),
    _find_stat_value (pre ++ st :: post) tid = _find_stat_value (pre ++ st :: post') tid := by
  intro pre post post'
  induction pre with
  | nil =>
    cases st with
    | obj d =>
      simp only [jStatMatches] at hst
      simp [_find_stat_value, hst]
    | null => simp [jStatMatches] at hst
    | num q => simp [jStatMatches] at hst
    | str s => simp [jStatMatches] at hst
    | arr l => simp [jStatMatches] at hst
  | cons p rest ih =>
    cases p with
    | obj pd =>
      by_cases hp : jeqInt (pyGet pd "type") tid = true
      · simp [_find_stat_value, hp]
      · simpa [_find_stat_value, eq_false_of_ne_true hp] using ih
    | null => simpa [_find_stat_value] using ih
    | num q => simpa [_find_stat_value] using ih
    | str s => simpa [_find_stat_value] using ih
    | arr l => simpa [_find_stat_value] using ih

/-! ### Claim theorems -/

/-- C1: extraction obeys the missing-data policy: a derived metric
(null upstream id) is always absent; a matching observation with a null
value, or no matching observation at all, yields 0 under TrueZero and
absent under Missing; and an observed value of exactly 0 is returned as
0 under both policies. -/
theorem extract_obeys_missing_policy
    (stats : List (List (String × J))) (m : MetricDef) (tid : ℤ)
    (pre post : List (List (String × J))) (st : List (String × J)) :
    (m.api_type_id = none → extract_metric_value stats m = .null)
  ∧ (m.api_type_id = some tid → (∀ s ∈ stats, statMatches tid s = false) →
       (m.missing_semantic = .true_zero → extract_metric_value stats m = .num 0)
     ∧ (m.missing_semantic = .missing → extract_metric_value stats m = .null))
  ∧ (m.api_type_id = some tid → (∀ s ∈ pre, statMatches tid s = false) →
       statMatches tid st = true → pyGet st "value" = .null →
       (m.missing_semantic = .true_zero →
          extract_metric_value (pre ++ st :: post) m = .num 0)
     ∧ (m.missing_semantic = .missing →
          extract_metric_value (pre ++ st :: post) m = .null))
  ∧ (m.api_type_id = some tid → (∀ s ∈ pre, statMatches tid s = false) →
       statMatches tid st = true → pyGet st "value" = .num 0 →
       extract_metric_value (pre ++ st :: post) m = .num 0) := by
  refine ⟨?_, ?_, ?_, ?_⟩
  · intro h
    simp [extract_metric_value, h]
  · intro h hall
    have key := extract_scan_all_miss m tid stats hall
    constructor <;> intro hp <;>
      simp [extract_metric_value, h, key, nullPolicy, hp]
  · intro h hpre hst hv
    have key := extract_scan_first_found m tid st hst pre post hpre
    rw [hv] at key
    constructor <;> intro hp <;>
      simp_all [extract_metric_value, h, nullPolicy, J.isNull]
  · intro h hpre hst hv
    have key := extract_scan_first_found m tid st hst pre post hpre
    rw [hv] at key
    simp_all [extract_metric_value, h, J.isNull]

theorem extract_obeys_missing_policy_witness :
    extract_metric_value [[("type", .num 21), ("value", .null)]] GOALS = .num 0
  ∧ extract_metric_value [[("type", .num 10), ("value", .null)]] RATING = .null
  ∧ extract_metric_value [] GOALS = .num 0
  ∧ extract_metric_value [] RATING = .null
  ∧ extract_metric_value [[("type", .num 21), ("value", .num 0)]] GOALS = .num 0
  ∧ extract_metric_value [[("type", .num 10), ("value", .num 0)]] RATING = .num 0
  ∧ extract_metric_value [[("type", .num 57), ("value", .num 3)]] SHOT_ACCURACY = .null := by
  refine ⟨?_, ?_, ?_, ?_, ?_, ?_, ?_⟩
  · exact (((extract_obeys_missing_policy [] GOALS 21 []
      [] [("type", .num 21), ("value", .null)]).2.2.1 rfl (by simp)
      (by norm_num +decide [statMatches, jeqInt, pyGet, lookupKey, List.find?]) rfl)).1 rfl
  · exact (((extract_obeys_missing_policy [] RATING 10 []
      [] [("type", .num 10), ("value", .null)]).2.2.1 rfl (by simp)
      (by norm_num +decide [statMatches, jeqInt, pyGet, lookupKey, List.find?]) rfl)).2 rfl
  · exact ((extract_obeys_missing_policy [] GOALS 21 [] [] []).2.1 rfl (by simp)).1 rfl
  · exact ((extract_obeys_missing_policy [] RATING 10 [] [] []).2.1 rfl (by simp)).2 rfl
  · exact ((extract_obeys_missing_policy [] GOALS 21 []
      [] [("type", .num 21), ("value", .num 0)]).2.2.2 rfl (by simp)
      (by norm_num +decide [statMatches, jeqInt, pyGet, lookupKey, List.find?]) rfl)
  · exact ((extract_obeys_missing_policy [] RATING 10 []
      [] [("type", .num 10), ("value", .num 0)]).2.2.2 rfl (by simp)
      (by norm_num +decide [statMatches, jeqInt, pyGet, lookupKey, List.find?]) rfl)
  · exact (extract_obeys_missing_policy [[("type", .num 57), ("value", .num 3)]]
      SHOT_ACCURACY 0 [] [] []).1 rfl

/-- C10: with duplicate observations for one type id, the first one in
list order fully decides extraction (its value, or its null through the
policy); observations after it never affect the result — both for
stats_config.extract_metric_value and for data_tools._find_stat_value. -/
theorem first_matching_observation_decides
    (m : MetricDef) (tid : ℤ) (st d : List (String × J))
    (hm : m.api_type_id = some tid) (hst : statMatches tid st = true)
    (hd : jeqInt (pyGet d "type") tid = true) :
    (∀ pre post post' : List (List (String × J)),
       extract_metric_value (pre ++ st :: post) m
         = extract_metric_value (pre ++ st :: post') m)
  ∧ (∀ pre post : List (List (String × J)),
       (∀ s ∈ pre, statMatches tid s = false) →
       extract_metric_value (pre ++ st :: post) m
         = (if (pyGet st "value").isNull then nullPolicy m else pyGet st "value"))
  ∧ (∀ pre post post' : List J,
       _find_stat_value (pre ++ .obj d :: post) tid
         = _find_stat_value (pre ++ .obj d :: post') tid)
  ∧ (∀ pre post : List J,
       (∀ s ∈ pre, jStatMatches tid s = false) →
       _find_stat_value (pre ++ .obj d :: post) tid
         = (true, coerce_numeric (pyGet d "value"))) := by
  refine ⟨?_, ?_, ?_, ?_⟩
  · intro pre post post'
    simp only [extract_metric_value, hm]
    exact extract_scan_post_irrelevant m tid st hst pre post post'
  · intro pre post hpre
    simp only [extract_metric_value, hm]
    exact extract_scan_first_found m tid st hst pre post hpre
  · intro pre post post'
    exact find_stat_post_irrelevant tid (.obj d) (by simpa [jStatMatches] using hd)
      pre post post'
  · intro pre post hpre
    exact find_stat_first_found tid d hd pre post hpre

theorem first_matching_observation_decides_witness :
    extract_metric_value
        [[("type", .num 21), ("value", .num 2)], [("type", .num 21), ("value", .num 7)]] GOALS
      = extract_metric_value [[("type", .num 21), ("value", .num 2)]] GOALS
  ∧ extract_metric_value
        [[("type", .num 21), ("value", .num 2)], [("type", .num 21), ("value", .num 7)]] GOALS
      = .num 2
  ∧ _find_stat_value
        [.obj [("type", .num 21), ("value", .null)], .obj [("type", .num 21), ("value", .num 7)]] 21
      = _find_stat_value [.obj [("type", .num 21), ("value", .null)]] 21
  ∧ _find_stat_value
        [.obj [("type", .num 21), ("value", .null)], .obj [("type", .num 21), ("value", .num 7)]] 21
      = (true, .null) := by
  have hmatch : statMatches 21 [("type", .num 21), ("value", .num 2)] = true := by
    norm_num +decide [statMatches, jeqInt, pyGet, lookupKey, List.find?]
  have hmatch2 : jeqInt (pyGet [("type", J.num 21), ("value", J.null)] "type") 21 = true := by
    norm_num +decide [jeqInt, pyGet, lookupKey, List.find?]
  have base := first_matching_observation_decides GOALS 21
    [("type", .num 21), ("value", .num 2)] [("type", .num 21), ("value", .null)]
    rfl hmatch hmatch2
  refine ⟨?_, ?_, ?_, ?_⟩
  · exact base.1 [] [[("type", .num 21), ("value", .num 7)]] []
  · have := base.2.1 [] [[("type", .num 21), ("value", .num 7)]] (by simp)
    simpa [pyGet, lookupKey, List.find?, J.isNull] using this
  · exact base.2.2.1 [] [.obj [("type", .num 21), ("value", .num 7)]] []
  · have := base.2.2.2 [] [.obj [("type", .num 21), ("value", .num 7)]] (by simp)
    simpa [pyGet, lookupKey, List.find?, coerce_numeric] using this

/-- The fallback candidate loop: the first candidate id present in the
observation list decides the result. -/
theorem fallback_scan_first_found (stats : List J) (m : MetricDef) :
    ∀ (cpre : List ℤ) (c : ℤ) (cpost : List ℤ),
    (∀ t ∈ cpre, (_find_stat_value stats t).1 = false) →
    (_find_stat_value stats c).1 = true →
    fallback_scan stats m (cpre ++ c :: cpost) =
      (if ((_find_stat_value stats c).2).isNull then nullPolicy m
       else (_find_stat_value stats c).2) := by
  intro cpre c cpost h hc
  induction cpre with
  | nil =>
    rcases hfsv : _find_stat_value stats c with ⟨b, v⟩
    rw [hfsv] at hc
    simp only at hc
    subst hc
    simp [fallback_scan, hfsv]
  | cons t rest ih =>
    have h1 := h t (by simp)
    rcases hfsv : _find_stat_value stats t with ⟨b, v⟩
    rw [hfsv] at h1
    simp only at h1
    subst h1
    simp only [List.cons_append, fallback_scan, hfsv]
    exact ih (fun t2 ht2 => h t2 (by simp [ht2]))

/-- C7: extraction tries the canonical id then each fallback id in
order; the first id that is present wins even when its stored value is
null (the missing policy is then applied), a strict first-found
process. -/
theorem fallback_first_identifier_wins
    (stats : List J) (m : MetricDef) (tid : ℤ)
    (cpre : List ℤ) (c : ℤ) (cpost : List ℤ)
    (hm : m.api_type_id = some tid)
    (hdecomp : tid :: LIVE_TYPE_ID_FALLBACKS m.key = cpre ++ c :: cpost)
    (hpre : ∀ t ∈ cpre, (_find_stat_value stats t).1 = false)
    (hc : (_find_stat_value stats c).1 = true) :
    ((_find_stat_value stats c).2.isNull = true →
       (m.missing_semantic = .true_zero →
          _extract_metric_value_with_fallback stats m = .num 0)
     ∧ (m.missing_semantic = .missing →
          _extract_metric_value_with_fallback stats m = .null))
  ∧ ((_find_stat_value stats c).2.isNull = false →
       _extract_metric_value_with_fallback stats m = (_find_stat_value stats c).2) := by
  have key : _extract_metric_value_with_fallback stats m =
      (if ((_find_stat_value stats c).2).isNull then nullPolicy m
       else (_find_stat_value stats c).2) := by
    have unf : _extract_metric_value_with_fallback stats m
        = fallback_scan stats m (tid :: LIVE_TYPE_ID_FALLBACKS m.key) := by
      simp [_extract_metric_value_with_fallback, hm]
    rw [unf, hdecomp]
    exact fallback_scan_first_found stats m cpre c cpost hpre hc
  refine ⟨fun hnull => ?_, fun hnn => ?_⟩
  · constructor <;> intro hp <;> simp [key, hnull, nullPolicy, hp]
  · simp [key, hnn]

theorem fallback_first_identifier_wins_witness :
    _extract_metric_value_with_fallback
        [.obj [("type", .num 226), ("value", .null)],
         .obj [("type", .num 1), ("value", .num 5)]] ASSISTS = .num 0
  ∧ _extract_metric_value_with_fallback
        [.obj [("type", .num 0), ("value", .null)]] RATING = .null := by
  constructor
  · exact ((fallback_first_identifier_wins
      [.obj [("type", .num 226), ("value", .null)],
       .obj [("type", .num 1), ("value", .num 5)]] ASSISTS 22 [22] 226 [1]
      rfl (by norm_num +decide [LIVE_TYPE_ID_FALLBACKS, ASSISTS])
      (by intro t ht
          simp only [List.mem_singleton] at ht
          subst ht
          norm_num +decide [_find_stat_value, pyGet, lookupKey, List.find?, jeqInt])
      (by norm_num +decide [_find_stat_value, pyGet, lookupKey, List.find?, jeqInt])).1
      (by norm_num +decide [_find_stat_value, pyGet, lookupKey, List.find?, jeqInt,
            coerce_numeric, J.isNull])).1 rfl
  · exact ((fallback_first_identifier_wins
      [.obj [("type", .num 0), ("value", .null)]] RATING 10 [10] 0 []
      rfl (by norm_num +decide [LIVE_TYPE_ID_FALLBACKS, RATING])
      (by intro t ht
          simp only [List.mem_singleton] at ht
          subst ht
          norm_num +decide [_find_stat_value, pyGet, lookupKey, List.find?, jeqInt])
      (by norm_num +decide [_find_stat_value, pyGet, lookupKey, List.find?, jeqInt])).1
      (by norm_num +decide [_find_stat_value, pyGet, lookupKey, List.find?, jeqInt,
            coerce_numeric, J.isNull])).2 rfl

/-- C5 counterexample: "1e3" is a numeric string in scientific
notation, yet coercion treats it as absent (the float parse is only
attempted when the string contains a decimal point). -/
theorem coercion_scientific_counterexample :
    coerce_numeric (.str "1e3") = .null ∧ coerce_numeric (.str "1e3") ≠ .num 1000 := by
  have h : coerce_numeric (.str "1e3") = .null := by
    simp +decide [coerce_numeric, pyStrip, pyInt, signSplit, digitsVal]
  exact ⟨h, by simp [h]⟩

/-- C5 amended: native numbers pass through unchanged; numeric strings
coerce through a dot-gated parse — strings containing a decimal point
accept full decimal/exponent notation, dot-free strings only plain
optionally-signed integers (so dot-free scientific notation such as
"1e3" is treated as absent); every other string is treated as absent,
and a string never coerces to anything but a number or absence. -/
theorem coercion_dot_gated :
    (∀ q : ℚ, coerce_numeric (.num q) = .num q)
  ∧ (∀ s : String, coerce_numeric (.str s) = .null ∨ ∃ q : ℚ, coerce_numeric (.str s) = .num q)
  ∧ coerce_numeric (.str "2.5") = .num (5/2)
  ∧ coerce_numeric (.str " -10 ") = .num (-10)
  ∧ coerce_numeric (.str "1.5e3") = .num 1500
  ∧ coerce_numeric (.str "2.5e-1") = .num (1/4)
  ∧ coerce_numeric (.str "+3") = .num 3
  ∧ coerce_numeric (.str "1e3") = .null
  ∧ coerce_numeric (.str "") = .null
  ∧ coerce_numeric (.str "abc") = .null := by
  refine ⟨fun q => rfl, fun s => ?_, ?_, ?_, ?_, ?_, ?_, ?_, ?_, ?_⟩
  · by_cases h1 : pyStrip s.data = []
    · left; simp [coerce_numeric, h1]
    · by_cases h2 : '.' ∈ pyStrip s.data
      · rcases h3 : pyFloat (pyStrip s.data) with _ | q
        · left; simp [coerce_numeric, h1, h2, h3]
        · right; exact ⟨q, by simp [coerce_numeric, h1, h2, h3]⟩
      · rcases h3 : pyInt (pyStrip s.data) with _ | n
        · left; simp [coerce_numeric, h1, h2, h3]
        · right; exact ⟨n, by simp [coerce_numeric, h1, h2, h3]⟩
  · norm_num +decide [coerce_numeric, pyStrip, pyFloat, pyMantissa, pyMantissaCore,
      pyInt, signSplit, digitsVal, digitToNat, splitOnPred]
  · norm_num +decide [coerce_numeric, pyStrip, pyInt, signSplit, digitsVal, digitToNat]
  · norm_num +decide [coerce_numeric, pyStrip, pyFloat, pyMantissa, pyMantissaCore,
      pyInt, signSplit, digitsVal, digitToNat, splitOnPred]
  · norm_num +decide [coerce_numeric, pyStrip, pyFloat, pyMantissa, pyMantissaCore,
      pyInt, signSplit, digitsVal, digitToNat, splitOnPred]
  · norm_num +decide [coerce_numeric, pyStrip, pyInt, signSplit, digitsVal, digitToNat]
  · simp +decide [coerce_numeric, pyStrip, pyInt, signSplit, digitsVal]
  · simp +decide [coerce_numeric, pyStrip]
  · simp +decide [coerce_numeric, pyStrip, pyInt, signSplit, digitsVal]

theorem coercion_dot_gated_witness :
    coerce_numeric (.num (7/2)) = .num (7/2)
  ∧ (coerce_numeric (.str "xyz") = .null ∨ ∃ q : ℚ, coerce_numeric (.str "xyz") = .num q) :=
  ⟨coercion_dot_gated.1 (7/2), coercion_dot_gated.2.1 "xyz"⟩

/-- C3 counterexample: when no baseline entry exists, the
BASELINE_MISSING warning's machine-readable details carry no "reason"
entry at all (only the zero-variance and low-sample guardrails do), so
the claim's "details carry the correct reason (no baseline)" fails. -/
theorem zscore_no_reason_counterexample :
    compute_zscore emptyBaselines (some 1) "goals" "premier_league" "2025_2026" "all_positions"
      = .ok { value := some 1,
              warnings := [noBaselineWarn "goals" "premier_league" "2025_2026" "all_positions"] }
  ∧ (noBaselineWarn "goals" "premier_league" "2025_2026" "all_positions").detail "reason"
      = none := by
  exact ⟨rfl, rfl⟩

/-- C3 amended: absent per-90 input is an explicit error; a missing
baseline entry returns the raw value with a BASELINE_MISSING warning
whose details identify the lookup and the raw_per90 fallback but carry
no machine-readable reason; an absent or zero std returns the raw value
with reason "zero_variance"; n < 30 returns the raw value with reason
"low_sample" and the actual n; otherwise z = (v − mean) / std with a
nonzero divisor, so division by zero never occurs. -/
theorem zscore_guardrails
    (B : Baselines) (v : ℚ) (mk lg se po : String) (b : Baseline) :
    (compute_zscore B none mk lg se po
       = .ok { value := none, error := some "Cannot compute z-score: per90_value is None." })
  ∧ (B lg se po mk = none →
       compute_zscore B (some v) mk lg se po
         = .ok { value := some v, warnings := [noBaselineWarn mk lg se po] }
     ∧ (noBaselineWarn mk lg se po).detail "reason" = none
     ∧ (noBaselineWarn mk lg se po).detail "fallback" = some (.str "raw_per90"))
  ∧ (B lg se po mk = some b → (b.std = none ∨ b.std = some 0) →
       compute_zscore B (some v) mk lg se po
         = .ok { value := some v, warnings := [zeroVarianceWarn mk] }
     ∧ (zeroVarianceWarn mk).detail "reason" = some (.str "zero_variance"))
  ∧ (∀ s : ℚ, B lg se po mk = some b → b.std = some s → s ≠ 0 → b.n.getD 0 < 30 →
       compute_zscore B (some v) mk lg se po
         = .ok { value := some v, warnings := [lowSampleWarn mk (b.n.getD 0)] }
     ∧ (lowSampleWarn mk (b.n.getD 0)).detail "reason" = some (.str "low_sample")
     ∧ (lowSampleWarn mk (b.n.getD 0)).detail "n" = some (.num ((b.n.getD 0 : ℤ) : ℚ)))
  ∧ (∀ (s mean : ℚ), B lg se po mk = some b → b.std = some s → s ≠ 0 →
       (30 : ℤ) ≤ b.n.getD 0 → b.mean = some mean →
       compute_zscore B (some v) mk lg se po = .ok { value := some ((v - mean) / s) }
     ∧ s ≠ 0) := by
  refine ⟨rfl, fun hB => ?_, fun hB hstd => ?_, fun s hB hstd hs hn => ?_,
    fun s mean hB hstd hs hn hmean => ?_⟩
  · exact ⟨by simp [compute_zscore, hB], rfl, rfl⟩
  · refine ⟨?_, rfl⟩
    rcases hstd with h | h <;> simp [compute_zscore, hB, h]
  · refine ⟨?_, rfl, rfl⟩
    have hlt : ¬ ((30 : ℤ) ≤ b.n.getD 0) := not_le.mpr hn
    simp [compute_zscore, hB, hstd, hs, not_le.mpr hn]
  · refine ⟨?_, hs⟩
    simp [compute_zscore, hB, hstd, hs, hmean, not_lt.mpr hn]

theorem zscore_guardrails_witness :
    compute_zscore egBaselines none "goals" "premier_league" "2025_2026" "all_positions"
      = .ok { value := none, error := some "Cannot compute z-score: per90_value is None." }
  ∧ compute_zscore egBaselines (some (450/433)) "nope" "premier_league" "2025_2026" "all_positions"
      = .ok { value := some (450/433),
              warnings := [noBaselineWarn "nope" "premier_league" "2025_2026" "all_positions"] }
  ∧ compute_zscore egBaselines (some (450/433)) "assists" "premier_league" "2025_2026" "all_positions"
      = .ok { value := some (450/433), warnings := [zeroVarianceWarn "assists"] }
  ∧ compute_zscore egBaselines (some (450/433)) "rating" "premier_league" "2025_2026" "all_positions"
      = .ok { value := some (450/433), warnings := [lowSampleWarn "rating" 10] }
  ∧ compute_zscore egBaselines (some (450/433)) "goals" "premier_league" "2025_2026" "all_positions"
      = .ok { value := some ((450/433 - 1) / 2) } := by
  refine ⟨?_, ?_, ?_, ?_, ?_⟩
  · exact (zscore_guardrails egBaselines (450/433) "goals" "premier_league" "2025_2026"
      "all_positions" ⟨none, none, none⟩).1
  · exact ((zscore_guardrails egBaselines (450/433) "nope" "premier_league" "2025_2026"
      "all_positions" ⟨none, none, none⟩).2.1 (by rfl)).1
  · exact ((zscore_guardrails egBaselines (450/433) "assists" "premier_league" "2025_2026"
      "all_positions" ⟨some 1, some 0, some 40⟩).2.2.1 (by rfl) (Or.inr rfl)).1
  · exact ((zscore_guardrails egBaselines (450/433) "rating" "premier_league" "2025_2026"
      "all_positions" ⟨some 1, some 2, some 10⟩).2.2.2.1 2 (by rfl) rfl
      (by norm_num) (by decide)).1
  · exact ((zscore_guardrails egBaselines (450/433) "goals" "premier_league" "2025_2026"
      "all_positions" ⟨some 1, some 2, some 500⟩).2.2.2.2 2 1 (by rfl) rfl
      (by norm_num) (by decide) rfl).1

/-- Every exit of the simple per-90 path builds a data result with no
terminal error. -/
theorem per90_main_path_no_error (games : List Game) (mk : String) (md : MetricDef)
    (hk : keyToMetric mk = some md) (hr : md.per90_rule = .per90_by_minutes) :
    ∀ r, compute_per90 games mk = .ok r → r.error = none := by
  intro r h
  simp only [compute_per90, hk, hr] at h
  norm_num at h
  rcases hf : per90_fold mk games 0 0 false [] with e | ⟨tm, tmin, hav, ws⟩ <;>
    rw [hf] at h
  · rw [except_bind_error] at h
    exact absurd h (by simp)
  · rw [except_bind_ok] at h
    split_ifs at h <;>
      first
      | contradiction
      | (rw [except_pure] at h
         simp only [Except.ok.injEq] at h
         rw [← h])

/-- C4 counterexample: "goal_involvement" is a derived metric, yet a
per-90 request on it is not an explicit error — its ByMinutes rule
sends it down the ordinary per-90 path, which returns a data-absence
result with no error set. -/
theorem per90_on_derived_counterexample :
    keyToMetric "goal_involvement" = some GOAL_INVOLVEMENT
  ∧ GOAL_INVOLVEMENT.is_derived = true
  ∧ compute_per90 [] "goal_involvement"
      = .ok { value := none, warnings := [aggUnavailWarn "goal_involvement"] }
  ∧ ({ value := none, warnings := [aggUnavailWarn "goal_involvement"] } : QuantResult).error
      = none := by
  refine ⟨rfl, rfl, ?_, rfl⟩
  norm_num +decide [compute_per90, keyToMetric, List.find?, ALL_RAW_METRICS,
    ALL_DERIVED_METRICS, per90_fold, GOALS, RATING, ASSISTS, MINUTES_PLAYED,
    YELLOW_CARDS, RED_CARDS, EXPECTED_GOALS, SHOTS_TOTAL, SHOTS_ON_TARGET,
    TOUCHES_IN_BOX, KEY_PASSES, TACKLES_WON, SHOT_ACCURACY, GOAL_INVOLVEMENT,
    XG_OVERPERFORMANCE, MINUTES_PER_GOAL, except_bind_ok, except_pure]

/-- C4 amended: unknown metric keys are explicit terminal errors from
both the per-90 and the derived computation; a per-90 request on a
NotApplicable metric fails with an explicit error; a WeightedRatio
metric is redirected to the derived computation; a derived computation
on a non-derived key is an explicit error; but a per-90 request on a
derived key is only rejected through its rule — a derived key whose
rule is ByMinutes (goal_involvement) proceeds as an ordinary per-90
over the records and yields a data result with no error. -/
theorem metric_key_dispatch
    (games : List Game) (mk : String) (md : MetricDef) :
    (keyToMetric mk = none →
       compute_per90 games mk = .ok { error := some ("Unknown metric: " ++ mk) }
     ∧ compute_derived games mk = .ok { error := some ("Unknown metric: " ++ mk) })
  ∧ (keyToMetric mk = some md → md.per90_rule = .na →
       compute_per90 games mk
         = .ok { error := some ("Metric " ++ mk ++ " does not support per-90 normalization.") })
  ∧ (keyToMetric mk = some md → md.per90_rule = .weightedRatio →
       compute_per90 games mk = compute_derived games mk)
  ∧ (keyToMetric mk = some md → md.is_derived = false →
       compute_derived games mk
         = .ok { error := some ("Metric " ++ mk ++ " is not a derived metric.") })
  ∧ (∀ r, compute_per90 games "goal_involvement" = .ok r → r.error = none) := by
  refine ⟨fun hk => ?_, fun hk hna => ?_, fun hk hwr => ?_, fun hk hnd => ?_, ?_⟩
  · exact ⟨by simp [compute_per90, hk], by simp [compute_derived, hk]⟩
  · simp [compute_per90, hk, hna]
  · simp [compute_per90, hk, hwr]
  · simp [compute_derived, hk, hnd]
  · exact per90_main_path_no_error games "goal_involvement" GOAL_INVOLVEMENT rfl rfl

theorem metric_key_dispatch_witness :
    compute_per90 [] "nope" = .ok { error := some "Unknown metric: nope" }
  ∧ compute_derived [] "nope" = .ok { error := some "Unknown metric: nope" }
  ∧ compute_per90 [] "rating"
      = .ok { error := some "Metric rating does not support per-90 normalization." }
  ∧ compute_per90 [] "shot_accuracy" = compute_derived [] "shot_accuracy"
  ∧ compute_derived [] "goals" = .ok { error := some "Metric goals is not a derived metric." }
  ∧ ∀ r, compute_per90 [] "goal_involvement" = .ok r → r.error = none := by
  refine ⟨?_, ?_, ?_, ?_, ?_, ?_⟩
  · exact ((metric_key_dispatch [] "nope" ⟨none, "", "", "", "", none, .missing, .na, none, none, false, []⟩).1 rfl).1
  · exact ((metric_key_dispatch [] "nope" ⟨none, "", "", "", "", none, .missing, .na, none, none, false, []⟩).1 rfl).2
  · exact (metric_key_dispatch [] "rating" RATING).2.1 rfl rfl
  · exact (metric_key_dispatch [] "shot_accuracy" SHOT_ACCURACY).2.2.1 rfl rfl
  · exact (metric_key_dispatch [] "goals" GOALS).2.2.2.1 rfl rfl
  · exact (metric_key_dispatch [] "goal_involvement" GOALS).2.2.2.2

/-- Loop invariant of the per-90 accumulation: present games add their
value and minutes, absent games add a warning, and a canonical minutes
entry keeps the loop total. -/
theorem per90_fold_spec (mk : String) :
    ∀ (games : List Game) (tm tmin : ℚ) (hav : Bool) (ws : List Warning),
    (∀ g ∈ games, (g.valD0 "minutes_played").isSome = true) →
    per90_fold mk games tm tmin hav ws =
      .ok (tm + sumMetric mk games, tmin + sumMinutes mk games,
           hav || games.any (fun g => (g.val mk).isSome),
           ws ++ absentWarnings mk games) := by
  intro games
  induction games with
  | nil =>
    intro tm tmin hav ws _
    simp [per90_fold, sumMetric, sumMinutes, absentWarnings]
  | cons g rest ih =>
    intro tm tmin hav ws h
    rcases hval : g.val mk with _ | v
    · simp only [per90_fold, hval]
      rw [ih tm tmin hav (ws ++ [gameMetricWarn mk g])
        (fun g2 hg2 => h g2 (by simp [hg2]))]
      simp [sumMetric, sumMinutes, absentWarnings, hval]
    · have hmins := h g (by simp)
      rcases hmD : g.valD0 "minutes_played" with _ | mins
      · rw [hmD] at hmins; simp at hmins
      · simp only [per90_fold, hval, hmD]
        rw [ih (tm + v) (tmin + mins) true ws
          (fun g2 hg2 => h g2 (by simp [hg2]))]
        simp [sumMetric, sumMinutes, absentWarnings, hval, hmD, add_assoc]

/-- C2: for ByMinutes metrics over canonical records, per-90 is
sum(values present) / sum(minutes over contributing games) * 90; absent
games are excluded from both sums, each with a METRIC_UNAVAILABLE
warning; no contribution at all yields absence with one aggregate
warning; a minutes total below the 90 threshold yields absence with an
INSUFFICIENT_MINUTES warning carrying the total and the threshold; and
the spec's worked example evaluates to (5/433)*90. -/
theorem per90_by_minutes_formula
    (games : List Game) (mk : String) (md : MetricDef)
    (hk : keyToMetric mk = some md) (hr : md.per90_rule = .per90_by_minutes)
    (hmin : ∀ g ∈ games, (g.valD0 "minutes_played").isSome = true) :
    (games.any (fun g => (g.val mk).isSome) = false →
       compute_per90 games mk = .ok { value := none, warnings := [aggUnavailWarn mk] })
  ∧ (games.any (fun g => (g.val mk).isSome) = true →
       sumMinutes mk games < PER90_MIN_MINUTES →
       compute_per90 games mk
         = .ok { value := none,
                 warnings := absentWarnings mk games
                   ++ [insuffMinutesWarn (sumMinutes mk games)] }
     ∧ (insuffMinutesWarn (sumMinutes mk games)).detail "total_minutes"
         = some (.num (sumMinutes mk games))
     ∧ (insuffMinutesWarn (sumMinutes mk games)).detail "threshold" = some (.num 90))
  ∧ (games.any (fun g => (g.val mk).isSome) = true →
       PER90_MIN_MINUTES ≤ sumMinutes mk games →
       compute_per90 games mk
         = .ok { value := some (sumMetric mk games / sumMinutes mk games * 90),
                 warnings := absentWarnings mk games })
  ∧ compute_per90 egGames "goals" = .ok { value := some (5 / 433 * 90) } := by
  have key := per90_fold_spec mk games 0 0 false [] hmin
  simp only [zero_add, Bool.false_or, List.nil_append] at key
  have unf : compute_per90 games mk
      = (per90_fold mk games 0 0 false [] >>= fun acc =>
          if acc.2.2.1 = false then
            pure { value := none, warnings := [aggUnavailWarn mk] }
          else if acc.2.1 < PER90_MIN_MINUTES then
            pure { value := none, warnings := acc.2.2.2 ++ [insuffMinutesWarn acc.2.1] }
          else pure { value := some (acc.1 / acc.2.1 * 90), warnings := acc.2.2.2 }) := by
    simp only [compute_per90, hk, hr]
    norm_num +decide
  refine ⟨fun hany => ?_, fun hany hlt => ?_, fun hany hge => ?_, ?_⟩
  · rw [unf, key, except_bind_ok]
    simp [hany, except_pure]
  · refine ⟨?_, rfl, rfl⟩
    rw [unf, key, except_bind_ok]
    simp [hany, hlt, except_pure]
  · rw [unf, key, except_bind_ok]
    simp [hany, not_lt.mpr hge, except_pure]
  · norm_num +decide [compute_per90, keyToMetric, List.find?, ALL_RAW_METRICS,
      ALL_DERIVED_METRICS, per90_fold, Game.val, Game.valD0, egGames,
      PER90_MIN_MINUTES, GOALS, RATING, ASSISTS, MINUTES_PLAYED, YELLOW_CARDS,
      RED_CARDS, EXPECTED_GOALS, SHOTS_TOTAL, SHOTS_ON_TARGET, TOUCHES_IN_BOX,
      KEY_PASSES, TACKLES_WON, SHOT_ACCURACY, GOAL_INVOLVEMENT,
      XG_OVERPERFORMANCE, MINUTES_PER_GOAL, except_bind_ok, except_pure]

theorem per90_by_minutes_formula_witness :
    compute_per90 egGames "goals" = .ok { value := some (5 / 433 * 90) }
  ∧ compute_per90 egGames "goals"
      = .ok { value := some (sumMetric "goals" egGames / sumMinutes "goals" egGames * 90),
              warnings := absentWarnings "goals" egGames }
  ∧ compute_per90 [⟨.num 9, [("expected_goals", none), ("minutes_played", some 90)]⟩]
        "expected_goals"
      = .ok { value := none, warnings := [aggUnavailWarn "expected_goals"] }
  ∧ compute_per90 [⟨.num 7, [("goals", some 1), ("minutes_played", some 45)]⟩] "goals"
      = .ok { value := none,
              warnings :=
                absentWarnings "goals" [⟨.num 7, [("goals", some 1), ("minutes_played", some 45)]⟩]
                ++ [insuffMinutesWarn
                     (sumMinutes "goals"
                       [⟨.num 7, [("goals", some 1), ("minutes_played", some 45)]⟩])] } := by
  refine ⟨?_, ?_, ?_, ?_⟩
  · exact (per90_by_minutes_formula egGames "goals" GOALS rfl rfl (by decide)).2.2.2
  · exact (per90_by_minutes_formula egGames "goals" GOALS rfl rfl (by decide)).2.2.1
      (by decide)
      (by norm_num +decide [sumMinutes, egGames, Game.val, Game.valD0, List.find?, PER90_MIN_MINUTES])
  · exact (per90_by_minutes_formula
      [⟨.num 9, [("expected_goals", none), ("minutes_played", some 90)]⟩]
      "expected_goals" EXPECTED_GOALS rfl rfl (by decide)).1 (by decide)
  · exact ((per90_by_minutes_formula
      [⟨.num 7, [("goals", some 1), ("minutes_played", some 45)]⟩]
      "goals" GOALS rfl rfl (by decide)).2.1 (by decide)
      (by norm_num +decide [sumMinutes, Game.val, Game.valD0, List.find?, PER90_MIN_MINUTES])).1

/-- xG accumulation when every game has xG present. -/
theorem xg_fold_all_present (ws : List Warning) :
    ∀ (games : List Game) (tg tx : ℚ),
    (∀ g ∈ games, (g.val "expected_goals").isSome = true) →
    xg_fold ws games tg tx =
      { value := some ((tg + (games.map (fun g => (g.val "goals").getD 0)).sum)
                     - (tx + (games.map (fun g => (g.val "expected_goals").getD 0)).sum)),
        warnings := ws } := by
  intro games
  induction games with
  | nil => intro tg tx _; simp [xg_fold]
  | cons g rest ih =>
    intro tg tx h
    have hg := h g (by simp)
    rcases hxg : g.val "expected_goals" with _ | xg
    · rw [hxg] at hg; simp at hg
    · simp only [xg_fold, hxg]
      rw [ih (tg + (g.val "goals").getD 0) (tx + xg)
        (fun g2 hg2 => h g2 (by simp [hg2]))]
      simp [hxg, add_assoc]

/-- The first game with absent xG aborts the fold, whatever follows. -/
theorem xg_fold_abort (ws : List Warning) :
    ∀ (pre : List Game) (g : Game) (post : List Game) (tg tx : ℚ),
    (∀ p ∈ pre, (p.val "expected_goals").isSome = true) →
    g.val "expected_goals" = none →
    xg_fold ws (pre ++ g :: post) tg tx
      = { value := none, warnings := ws ++ [gameMetricWarn "expected_goals" g] } := by
  intro pre
  induction pre with
  | nil => intro g post tg tx _ hg; simp [xg_fold, hg]
  | cons p rest ih =>
    intro g post tg tx h hg
    have hp := h p (by simp)
    rcases hxg : p.val "expected_goals" with _ | xg
    · rw [hxg] at hp; simp at hp
    · simp only [List.cons_append, xg_fold, hxg]
      exact ih g post _ _ (fun q hq => h q (by simp [hq])) hg

/-- Any absent xG in the list forces an absent result with exactly one
warning, independent of the accumulators. -/
theorem xg_fold_none_of_mem (ws : List Warning) :
    ∀ (games : List Game) (tg tx : ℚ),
    (∃ g ∈ games, g.val "expected_goals" = none) →
    ∃ w, xg_fold ws games tg tx = { value := none, warnings := ws ++ [w] }
       ∧ w.code = "METRIC_UNAVAILABLE" := by
  intro games
  induction games with
  | nil => intro tg tx h; simp at h
  | cons g rest ih =>
    intro tg tx h
    rcases hxg : g.val "expected_goals" with _ | xg
    · exact ⟨gameMetricWarn "expected_goals" g, by simp [xg_fold, hxg], rfl⟩
    · obtain ⟨g2, hmem, habs⟩ := h
      rcases List.mem_cons.mp hmem with rfl | hmem2
      · rw [hxg] at habs; cases habs
      · simp only [xg_fold, hxg]
        exact ih _ _ ⟨g2, hmem2, habs⟩

/-- C6: xG overperformance is sum(goals, absent as 0) − sum(xG) when
every game carries xG; the first game with absent xG aborts the whole
computation into an absent result with exactly one warning, regardless
of the completeness of the remaining games. -/
theorem xg_overperformance_all_or_nothing
    (games pre post : List Game) (g : Game) :
    ((∀ g2 ∈ games, (g2.val "expected_goals").isSome = true) →
       _compute_xg_overperformance games =
         { value := some ((games.map (fun g2 => (g2.val "goals").getD 0)).sum
                        - (games.map (fun g2 => (g2.val "expected_goals").getD 0)).sum) })
  ∧ ((∀ p ∈ pre, (p.val "expected_goals").isSome = true) →
       g.val "expected_goals" = none →
       _compute_xg_overperformance (pre ++ g :: post)
         = { value := none, warnings := [gameMetricWarn "expected_goals" g] })
  ∧ ((∃ g2 ∈ games, g2.val "expected_goals" = none) →
       ∃ w, _compute_xg_overperformance games = { value := none, warnings := [w] }
          ∧ w.code = "METRIC_UNAVAILABLE") := by
  refine ⟨fun h => ?_, fun hpre hg => ?_, fun hex => ?_⟩
  · have key := xg_fold_all_present [] games 0 0 h
    simpa [_compute_xg_overperformance] using key
  · have key := xg_fold_abort [] pre g post 0 0 hpre hg
    simpa [_compute_xg_overperformance] using key
  · obtain ⟨w, hw, hc⟩ := xg_fold_none_of_mem [] games 0 0 hex
    exact ⟨w, by simpa [_compute_xg_overperformance] using hw, hc⟩

theorem xg_overperformance_all_or_nothing_witness :
    _compute_xg_overperformance [⟨.num 1, [("goals", some 2), ("expected_goals", some (27/20))]⟩]
      = { value := some
            (([⟨.num 1, [("goals", some 2), ("expected_goals", some (27/20))]⟩].map
                (fun g2 : Game => (g2.val "goals").getD 0)).sum
           - ([⟨.num 1, [("goals", some 2), ("expected_goals", some (27/20))]⟩].map
                (fun g2 : Game => (g2.val "expected_goals").getD 0)).sum) }
  ∧ _compute_xg_overperformance
        [⟨.num 1, [("goals", some 2), ("expected_goals", none)]⟩,
         ⟨.num 2, [("goals", some 1), ("expected_goals", some 1)]⟩]
      = { value := none,
          warnings := [gameMetricWarn "expected_goals"
            ⟨.num 1, [("goals", some 2), ("expected_goals", none)]⟩] } := by
  constructor
  · exact (xg_overperformance_all_or_nothing
      [⟨.num 1, [("goals", some 2), ("expected_goals", some (27/20))]⟩] [] [] ⟨.null, []⟩).1
      (by decide)
  · exact (xg_overperformance_all_or_nothing []
      [] [⟨.num 2, [("goals", some 1), ("expected_goals", some 1)]⟩]
      ⟨.num 1, [("goals", some 2), ("expected_goals", none)]⟩).2.1
      (by simp) (by decide)

/-- Loop invariant of the shot-accuracy accumulation. -/
theorem shot_fold_spec :
    ∀ (games : List Game) (tOn tSh : ℚ) (ws : List Warning),
    shot_accuracy_fold games tOn tSh ws =
      (tOn + shotOnSum games, tSh + shotTotalSum games, ws ++ shotSkipWarnings games) := by
  intro games
  induction games with
  | nil => intro tOn tSh ws; simp [shot_accuracy_fold, shotOnSum, shotTotalSum, shotSkipWarnings]
  | cons g rest ih =>
    intro tOn tSh ws
    rcases hOn : g.val "shots_on_target" with _ | onv <;>
      rcases hSh : g.val "shots_total" with _ | shv <;>
      simp only [shot_accuracy_fold, hOn, hSh] <;>
      rw [ih] <;>
      simp [shotOnSum, shotTotalSum, shotSkipWarnings, bothShotsPresent,
        hOn, hSh, add_assoc]

/-- Loop invariant of the minutes-per-goal accumulation over canonical
records. -/
theorem mpg_fold_spec :
    ∀ (games : List Game) (tm tg : ℚ),
    (∀ g ∈ games, (g.valD0 "minutes_played").isSome = true
                ∧ (g.valD0 "goals").isSome = true) →
    mpg_fold games tm tg
      = .ok (tm + sumD0 "minutes_played" games, tg + sumD0 "goals" games) := by
  intro games
  induction games with
  | nil => intro tm tg _; simp [mpg_fold, sumD0]
  | cons g rest ih =>
    intro tm tg h
    obtain ⟨hm, hg⟩ := h g (by simp)
    rcases hmv : g.valD0 "minutes_played" with _ | mv
    · rw [hmv] at hm; simp at hm
    · rcases hgv : g.valD0 "goals" with _ | gv
      · rw [hgv] at hg; simp at hg
      · simp only [mpg_fold, hmv, hgv]
        rw [ih (tm + mv) (tg + gv) (fun g2 hg2 => h g2 (by simp [hg2]))]
        simp [sumD0, hmv, hgv, add_assoc]

/-- C8: the derived-metric divisions are guarded: shot accuracy returns
absent when the summed denominator is zero and divides only otherwise;
minutes-per-goal treats absent inputs as 0 and returns absent with a
warning when total goals is zero, dividing only otherwise — neither
ever divides by zero. -/
theorem derived_divisions_guarded (games : List Game) :
    (shotTotalSum games = 0 →
       _compute_shot_accuracy games = { value := none, warnings := shotSkipWarnings games })
  ∧ (shotTotalSum games ≠ 0 →
       _compute_shot_accuracy games
         = { value := some (shotOnSum games / shotTotalSum games),
             warnings := shotSkipWarnings games })
  ∧ ((∀ g ∈ games, (g.valD0 "minutes_played").isSome = true
                 ∧ (g.valD0 "goals").isSome = true) →
       (sumD0 "goals" games = 0 →
          _compute_minutes_per_goal games
            = .ok { value := none,
                    warnings := [⟨"METRIC_UNAVAILABLE", [("total_goals", .num 0)]⟩] })
     ∧ (sumD0 "goals" games ≠ 0 →
          _compute_minutes_per_goal games
            = .ok { value := some (sumD0 "minutes_played" games / sumD0 "goals" games) })) := by
  have keyS := shot_fold_spec games 0 0 []
  simp only [zero_add, List.nil_append] at keyS
  refine ⟨fun hz => ?_, fun hnz => ?_, fun hcan => ⟨fun hz => ?_, fun hnz => ?_⟩⟩
  · simp [_compute_shot_accuracy, keyS, hz]
  · simp [_compute_shot_accuracy, keyS, hnz]
  · have keyM := mpg_fold_spec games 0 0 hcan
    simp only [zero_add] at keyM
    simp [_compute_minutes_per_goal, keyM, except_bind_ok, hz, except_pure]
  · have keyM := mpg_fold_spec games 0 0 hcan
    simp only [zero_add] at keyM
    simp [_compute_minutes_per_goal, keyM, except_bind_ok, hnz, except_pure]

theorem derived_divisions_guarded_witness :
    _compute_shot_accuracy [⟨.num 1, [("shots_on_target", some 3), ("shots_total", some 5)]⟩]
      = { value := some
            (shotOnSum [⟨.num 1, [("shots_on_target", some 3), ("shots_total", some 5)]⟩]
             / shotTotalSum [⟨.num 1, [("shots_on_target", some 3), ("shots_total", some 5)]⟩]),
          warnings := shotSkipWarnings
            [⟨.num 1, [("shots_on_target", some 3), ("shots_total", some 5)]⟩] }
  ∧ _compute_shot_accuracy [] = { value := none, warnings := shotSkipWarnings [] }
  ∧ _compute_minutes_per_goal egGames
      = .ok { value := some (sumD0 "minutes_played" egGames / sumD0 "goals" egGames) }
  ∧ _compute_minutes_per_goal [⟨.num 1, [("goals", some 0), ("minutes_played", some 90)]⟩]
      = .ok { value := none,
              warnings := [⟨"METRIC_UNAVAILABLE", [("total_goals", .num 0)]⟩] } := by
  refine ⟨?_, ?_, ?_, ?_⟩
  · exact (derived_divisions_guarded
      [⟨.num 1, [("shots_on_target", some 3), ("shots_total", some 5)]⟩]).2.1
      (by norm_num +decide [shotTotalSum, bothShotsPresent, Game.val, List.find?])
  · exact (derived_divisions_guarded []).1 (by simp [shotTotalSum])
  · exact ((derived_divisions_guarded egGames).2.2 (by decide)).2
      (by norm_num +decide [sumD0, egGames, Game.valD0, List.find?])
  · exact ((derived_divisions_guarded
      [⟨.num 1, [("goals", some 0), ("minutes_played", some 90)]⟩]).2.2 (by decide)).1
      (by norm_num +decide [sumD0, Game.valD0, List.find?])

/-- A safe competitor field never makes `(v or {}).get` raise. -/
theorem orDict_ok (v : J) (h : compFieldOk v = true) : ∃ d, orDict v = .ok d := by
  by_cases ht : v.truthy
  · cases v with
    | obj d => exact ⟨d, by simp [orDict, ht]⟩
    | null => simp [compFieldOk, ht] at h
    | num q => simp [compFieldOk, ht] at h
    | str s => simp [compFieldOk, ht] at h
    | arr l => simp [compFieldOk, ht] at h
  · exact ⟨[], by simp [orDict, ht]⟩

theorem opponentTail_ok (home away : J) : ∃ v, opponentTail home away = .ok v := by
  by_cases h : (home.truthy && away.truthy) = true
  · exact ⟨.str (jfmt home ++ " vs " ++ jfmt away), by simp [opponentTail, h]⟩
  · exact ⟨jor home (jor away (.str "Unknown")),
      by simp only [opponentTail, h, Bool.false_eq_true, if_false]⟩

theorem opponentSide_ok (go : J) (fn : String) (cur : J)
    (h : ∀ g, go = .obj g → compFieldOk (pyGet g fn) = true) :
    ∃ v, opponentSide go fn cur = .ok v := by
  cases go with
  | obj g =>
    by_cases hc : cur.truthy
    · exact ⟨cur, by simp [opponentSide, hc, except_pure]⟩
    · obtain ⟨d, hd⟩ := orDict_ok _ (h g rfl)
      exact ⟨pyGetD d "name" (.str ""),
        by simp [opponentSide, hc, hd, except_bind_ok, except_pure]⟩
  | null => exact ⟨cur, rfl⟩
  | num q => exact ⟨cur, rfl⟩
  | str s => exact ⟨cur, rfl⟩
  | arr l => exact ⟨cur, rfl⟩

theorem opponentRelated_ok (go related home away : J)
    (h : ∀ g, go = .obj g →
      compFieldOk (pyGet g "homeCompetitor") = true
    ∧ compFieldOk (pyGet g "awayCompetitor") = true) :
    ∃ v, opponentRelated go related home away = .ok v := by
  cases go with
  | obj g =>
    by_cases hr : related.isNull
    · obtain ⟨v, hv⟩ := opponentTail_ok home away
      exact ⟨v, by simp [opponentRelated, hr, hv]⟩
    · obtain ⟨hc, hhc⟩ := orDict_ok _ (h g rfl).1
      obtain ⟨ac, hac⟩ := orDict_ok _ (h g rfl).2
      by_cases h1 : jeqScalar (pyGet hc "id") related = true
      · exact ⟨jor (pyGet ac "name") (jor away (.str "Unknown")),
          by simp [opponentRelated, hr, hhc, hac, except_bind_ok, h1]⟩
      · by_cases h2 : jeqScalar (pyGet ac "id") related = true
        · exact ⟨jor (pyGet hc "name") (jor home (.str "Unknown")),
            by simp [opponentRelated, hr, hhc, hac, except_bind_ok, h1, h2]⟩
        · obtain ⟨v, hv⟩ := opponentTail_ok home away
          exact ⟨v, by simp [opponentRelated, hr, hhc, hac, except_bind_ok, h1, h2, hv]⟩
  | null => exact opponentTail_ok home away
  | num q => exact opponentTail_ok home away
  | str s => exact opponentTail_ok home away
  | arr l => exact opponentTail_ok home away

/-- The competitor fields of the opponent/score game object are safe
for any game passing `gameOk`. -/
theorem gameOk_comps (g : J) (hok : gameOk g = true) :
    ∀ dd, ((match g with | .obj d => pyGetD d "game" g | _ => J.obj []) = .obj dd
           ∨ (match g with | .obj d => pyGetD d "game" (.obj []) | _ => J.obj []) = .obj dd) →
      compFieldOk (pyGet dd "homeCompetitor") = true
    ∧ compFieldOk (pyGet dd "awayCompetitor") = true := by
  intro dd hdd
  cases g with
  | obj d =>
    simp only [gameOk, Bool.and_eq_true] at hok
    obtain ⟨h1, h2⟩ := hok
    rcases hlk : lookupKey d "game" with _ | v
    · rcases hdd with hd | hd
      · simp only [pyGetD, hlk, Option.getD] at hd
        cases hd
        simpa [objCompsOk, Bool.and_eq_true] using h1
      · simp only [pyGetD, hlk, Option.getD] at hd
        cases hd
        exact ⟨rfl, rfl⟩
    · have hv : pyGet d "game" = v := by simp [pyGet, hlk]
      rw [hv] at h2
      rcases hdd with hd | hd <;>
        · simp only [pyGetD, hlk, Option.getD] at hd
          cases hd
          simpa [objCompsOk, Bool.and_eq_true] using h2
  | null => rcases hdd with hd | hd <;> cases hd <;> exact ⟨rfl, rfl⟩
  | num q => rcases hdd with hd | hd <;> cases hd <;> exact ⟨rfl, rfl⟩
  | str s => rcases hdd with hd | hd <;> cases hd <;> exact ⟨rfl, rfl⟩
  | arr l => rcases hdd with hd | hd <;> cases hd <;> exact ⟨rfl, rfl⟩

theorem derive_opponent_ok (g : J) (hok : gameOk g = true) :
    ∃ v, _derive_opponent g = .ok v := by
  cases g with
  | obj d =>
    have hcomps := gameOk_comps (.obj d) hok
    obtain ⟨home, hhome⟩ := opponentSide_ok (pyGetD d "game" (.obj d)) "homeCompetitor"
      (pyGetD d "home_team" (.str ""))
      (fun gg hgg => (hcomps gg (Or.inl hgg)).1)
    obtain ⟨away, haway⟩ := opponentSide_ok (pyGetD d "game" (.obj d)) "awayCompetitor"
      (pyGetD d "away_team" (.str ""))
      (fun gg hgg => (hcomps gg (Or.inl hgg)).2)
    obtain ⟨v, hv⟩ := opponentRelated_ok (pyGetD d "game" (.obj d))
      (pyGet d "relatedCompetitor") home away
      (fun gg hgg => hcomps gg (Or.inl hgg))
    exact ⟨v, by simp only [_derive_opponent, hhome, except_bind_ok, haway, hv]⟩
  | null => exact ⟨.str "Unknown", rfl⟩
  | num q => exact ⟨.str "Unknown", rfl⟩
  | str s => exact ⟨.str "Unknown", rfl⟩
  | arr l => exact ⟨.str "Unknown", rfl⟩

theorem extract_game_score_ok (g : J) (hok : gameOk g = true) :
    ∃ v, _extract_game_score g = .ok v := by
  cases g with
  | obj d =>
    by_cases hs : (pyGet d "score").truthy
    · exact ⟨pyGet d "score", by simp [_extract_game_score, hs]⟩
    · rcases hgo : pyGetD d "game" (.obj []) with _ | q | s | l | go
      · exact ⟨.null, by simp [_extract_game_score, eq_false_of_ne_true hs, hgo]⟩
      · exact ⟨.null, by simp [_extract_game_score, eq_false_of_ne_true hs, hgo]⟩
      · exact ⟨.null, by simp [_extract_game_score, eq_false_of_ne_true hs, hgo]⟩
      · exact ⟨.null, by simp [_extract_game_score, eq_false_of_ne_true hs, hgo]⟩
      · have hcmp := gameOk_comps (.obj d) hok go (Or.inr (by simpa using hgo))
        obtain ⟨hc1, hhc⟩ := orDict_ok _ hcmp.1
        obtain ⟨ac1, hac⟩ := orDict_ok _ hcmp.2
        simp only [_extract_game_score, eq_false_of_ne_true hs, Bool.false_eq_true,
          if_false, hgo, hhc, hac, except_bind_ok]
        split
        · exact ⟨_, rfl⟩
        · split <;> try exact ⟨_, rfl⟩
          split <;> exact ⟨_, rfl⟩
  | null => exact ⟨.null, rfl⟩
  | num q => exact ⟨.null, rfl⟩
  | str s => exact ⟨.null, rfl⟩
  | arr l => exact ⟨.null, rfl⟩

theorem normGameRecord_ok (g : J) (hok : gameOk g = true) :
    ∃ out, normGameRecord g = .ok out := by
  obtain ⟨opp, hopp⟩ := derive_opponent_ok g hok
  obtain ⟨sc, hsc⟩ := extract_game_score_ok g hok
  simp only [normGameRecord, hopp, except_bind_ok, hsc, except_pure]
  exact ⟨_, rfl⟩

theorem mapM_loop_ok {α β : Type} (f : α → Except Unit β) :
    ∀ (l : List α) (acc : List β),
    (∀ a ∈ l, ∃ b, f a = .ok b) →
    ∃ bs, List.mapM.loop f l acc = .ok bs := by
  intro l
  induction l with
  | nil => intro acc _; exact ⟨acc.reverse, rfl⟩
  | cons a rest ih =>
    intro acc h
    obtain ⟨b, hb⟩ := h a (by simp)
    obtain ⟨bs, hbs⟩ := ih (b :: acc) (fun x hx => h x (by simp [hx]))
    exact ⟨bs, by simp only [List.mapM.loop, hb, except_bind_ok, hbs]⟩

/-- C9 counterexample: normalization does raise on some malformed
payloads — a null "games" entry makes the game-list normalizer iterate
None (TypeError), a non-dict lineup payload hits an unguarded `.get`
(AttributeError), and a truthy non-dict competitor field crashes
opponent derivation. -/
theorem normalization_raises_counterexample :
    _normalize_games (.obj [("games", .null)]) = .error ()
  ∧ _normalize_lineup (.num 3) = .error ()
  ∧ _derive_opponent (.obj [("game", .obj [("homeCompetitor", .num 5)])]) = .error () := by
  refine ⟨rfl, rfl, ?_⟩
  simp +decide [_derive_opponent, opponentSide, orDict, pyGet, pyGetD, lookupKey,
    List.find?, J.truthy, except_bind_error]

/-- C9 amended: normalization never raises provided the payload is a
mapping whose "games" entry (game-list mode) is absent or a list of
games whose competitor fields — directly or under the "game" wrapper —
are mappings whenever truthy, and whose "lineup" entry (lineup mode) is
absent or a mapping; within that class arbitrarily malformed contents
are tolerated, worst case an all-default record (null auxiliary fields,
policy-default metrics, "Unknown" opponent) rather than a failure. -/
theorem normalization_no_raise
    (d dl : List (String × J)) (gs : List J) (lobj : List (String × J)) :
    ((lookupKey d "games" = none ∨ lookupKey d "games" = some (.arr gs)) →
     (∀ g ∈ gs, gameOk g = true) →
     ∃ out, _normalize_games (.obj d) = .ok out)
  ∧ ((lookupKey dl "lineup" = none ∨ lookupKey dl "lineup" = some (.obj lobj)) →
     ∃ out2, _normalize_lineup (.obj dl) = .ok out2)
  ∧ _normalize_games (.obj [("games", .arr [.num 7])])
      = .ok ⟨[⟨.null, .null, .str "Unknown", .null,
              L1_METRICS.map (fun md => (md.key, nullPolicy md)), []⟩], []⟩ := by
  refine ⟨fun hgs hok => ?_, fun hl => ?_, ?_⟩
  · rcases hgs with h | h
    · exact ⟨⟨[], []⟩, by simp [_normalize_games, pyGetD, h, pyIterate,
        except_bind_ok, List.mapM, List.mapM.loop, except_pure]⟩
    · have hall : ∀ g ∈ gs, ∃ r, normGameRecord g = .ok r :=
        fun g hg => normGameRecord_ok g (hok g hg)
      obtain ⟨recs, hrecs⟩ := mapM_loop_ok normGameRecord gs [] hall
      refine ⟨⟨recs.map (fun r => r.1), (recs.map (fun r => r.2)).flatten⟩, ?_⟩
      simp [_normalize_games, pyGetD, h, pyIterate, except_bind_ok,
        List.mapM, hrecs, except_pure]
  · rcases hl with h | h
    · rcases hp : pyGet dl "position" with _ | q | s | l | p <;>
        · simp only [_normalize_lineup, pyGetD, h, Option.getD, _extract_position, hp,
            except_bind_ok, except_pure]
          exact ⟨_, rfl⟩
    · rcases hp : pyGet lobj "position" with _ | q | s | l | p <;>
        · simp only [_normalize_lineup, pyGetD, h, Option.getD, _extract_position, hp,
            except_bind_ok, except_pure]
          exact ⟨_, rfl⟩
  · rfl

theorem normalization_no_raise_witness :
    (∃ out, _normalize_games (.obj [("games", .arr
        [.num 7, .str "x",
         .obj [("game", .obj [("homeCompetitor", .null)]), ("statistics", .num 3)],
         .obj [("home_team", .str "A"), ("away_team", .str "B"),
               ("statistics", .arr [.num 4, .obj [("type", .num 999), ("value", .num 1)]])]])])
      = .ok out)
  ∧ (∃ out2, _normalize_lineup (.obj [("lineup", .obj [("position", .num 4)])]) = .ok out2)
  ∧ (∃ out3, _normalize_lineup (.obj [("athleteId", .num 9)]) = .ok out3) := by
  refine ⟨?_, ?_, ?_⟩
  · exact (normalization_no_raise [("games", .arr
        [.num 7, .str "x",
         .obj [("game", .obj [("homeCompetitor", .null)]), ("statistics", .num 3)],
         .obj [("home_team", .str "A"), ("away_team", .str "B"),
               ("statistics", .arr [.num 4, .obj [("type", .num 999), ("value", .num 1)]])]])]
      [] (.num 7 :: .str "x" ::
         .obj [("game", .obj [("homeCompetitor", .null)]), ("statistics", .num 3)] ::
         [.obj [("home_team", .str "A"), ("away_team", .str "B"),
               ("statistics", .arr [.num 4, .obj [("type", .num 999), ("value", .num 1)]])]])
      []).1 (Or.inr rfl) (by decide)
  · exact (normalization_no_raise [] [("lineup", .obj [("position", .num 4)])] []
      [("position", .num 4)]).2.1 (Or.inr rfl)
  · exact (normalization_no_raise [] [("athleteId", .num 9)] [] []).2.1 (Or.inl rfl)

end FootIQ
